import Mathlib

/-! The ipvlan driver: endpoint join/leave and subnet resolution.

A shallow embedding of `daemon/libnetwork/drivers/ipvlan/ipvlan_joinleave.go`
(`getSubnetForIP`, `ifaceGateway`, `driver.Join`, `driver.Leave`) together with
the parts of Go's `net` package those functions call (`ParseCIDR`,
`IPMask.Size`, `IPNet.Contains`).

Conventions of the embedding:

* a Go byte is a `Nat` (reduced modulo 256 where the Go code shifts a byte),
  an `IP` or `IPMask` is a list of bytes, the Go `nil` slice is `[]`;
* a Go pointer that may be `nil` is an `Option`; dereferencing `none` is the
  run-time fault `Res.fault` (Go's nil-pointer panic);
* a Go `error` result is `Res.err`;
* the elements of a `[]*ipSubnet` are taken to be non-nil, as the network
  configuration builds them;
* the arguments of a debug statement are evaluated, as Go does, so a debug
  statement that reads through a nil address record faults;
* the calls made on the join-info sink are collected, in order, in a list.
-/

set_option autoImplicit false

namespace Ipvlan

/-! ## Go `net`: addresses, masks, networks -/

/-- An IP address: a list of bytes (length 4 or 16 when well formed). -/
abbrev IP := List Nat

/-- A network mask: a list of bytes. -/
abbrev IPMask := List Nat

/-- Go `net.IPNet`: a network number and its mask. -/
structure IPNet where
  IP : IP
  Mask : IPMask
deriving DecidableEq, Repr

/-- Go `net.IPv4len`. -/
def IPv4len : Nat := 4

/-- Go `net.IPv6len`. -/
def IPv6len : Nat := 16

/-- The twelve bytes that precede an IPv4 address mapped into 16 bytes. -/
def v4InV6Prefix : List Nat := [0, 0, 0, 0, 0, 0, 0, 0, 0, 0, 0xff, 0xff]

/-- Go `IP.To4`: the 4-byte form of an IPv4 address, `none` for Go's `nil`. -/
def To4 (ip : IP) : Option IP :=
  if ip.length = IPv4len then some ip
  else if ip.length = IPv6len ∧ ip.take 12 = v4InV6Prefix then some (ip.drop 12)
  else none

/-- Inner loop of `simpleMaskLength`: count the leading one bits of a byte,
returning the count and what is left of the byte after the shifts. -/
def leadingOnes : Nat → Nat → Nat × Nat
  | 0, v => (0, v)
  | fuel + 1, v =>
    if v &&& 0x80 ≠ 0 then
      let r := leadingOnes fuel ((v * 2) % 256)
      (r.1 + 1, r.2)
    else (0, v)

/-- Go `simpleMaskLength`: the number of leading ones of a canonical mask,
`none` for Go's `-1`. -/
def simpleMaskLength : IPMask → Option Nat
  | [] => some 0
  | v :: rest =>
    if v = 0xff then (simpleMaskLength rest).map (· + 8)
    else
      let r := leadingOnes 8 v
      if r.2 ≠ 0 then none
      else if rest.all (· == 0) then some r.1 else none

/-- Go `IPMask.Size`, first result: the prefix length, `0` when the mask is not
canonical. -/
def maskSize (m : IPMask) : Nat :=
  match simpleMaskLength m with
  | some n => n
  | none => 0

/-- Go `networkNumberAndMask`; the result `nil, nil` is `([], [])`. -/
def networkNumberAndMask (n : IPNet) : IP × IPMask :=
  let ip? : Option IP :=
    match To4 n.IP with
    | some ip => some ip
    | none => if n.IP.length ≠ IPv6len then none else some n.IP
  match ip? with
  | none => ([], [])
  | some ip =>
    if n.Mask.length = IPv4len then
      if ip.length ≠ IPv4len then ([], []) else (ip, n.Mask)
    else if n.Mask.length = IPv6len then
      if ip.length = IPv4len then (ip, n.Mask.drop 12) else (ip, n.Mask)
    else ([], [])

/-- Byte-wise comparison under a mask, the loop of `IPNet.Contains`. -/
def maskedEq : List Nat → List Nat → List Nat → Bool
  | a :: as, m :: ms, b :: bs => (a &&& m) == (b &&& m) && maskedEq as ms bs
  | _, _, _ => true

/-- Go `IPNet.Contains`. -/
def Contains (n : IPNet) (ip : IP) : Bool :=
  let nm := networkNumberAndMask n
  let ip := match To4 ip with
    | some x => x
    | none => ip
  if ip.length ≠ nm.1.length then false
  else maskedEq nm.1 nm.2 ip

/-- Go `CIDRMask` for a bit count that is 32 or 128 and `ones ≤ bits`:
`l` bytes, of which the leading `ones` bits are set. -/
def CIDRMask : Nat → Nat → IPMask
  | _, 0 => []
  | n, l + 1 =>
    if n ≥ 8 then 0xff :: CIDRMask (n - 8) l
    else (255 - (0xff >>> n)) :: CIDRMask 0 l

/-- Go `IP.Mask`: the address with the mask applied, `[]` for Go's `nil`. -/
def ipMask (ip : IP) (mask : IPMask) : IP :=
  let mask := if mask.length = IPv6len ∧ ip.length = IPv4len ∧ (mask.take 12).all (· == 0xff)
    then mask.drop 12 else mask
  let ip := if mask.length = IPv4len ∧ ip.length = IPv6len ∧ ip.take 12 = v4InV6Prefix
    then ip.drop 12 else ip
  if ip.length ≠ mask.length then []
  else List.zipWith (· &&& ·) ip mask

/-! ## Go `net.ParseCIDR` -/

/-- Value of a decimal digit. -/
def decVal (c : Char) : Option Nat :=
  let n := c.toNat
  if 48 ≤ n ∧ n ≤ 57 then some (n - 48) else none

/-- Value of a hexadecimal digit. -/
def hexVal (c : Char) : Option Nat :=
  let n := c.toNat
  if 48 ≤ n ∧ n ≤ 57 then some (n - 48)
  else if 97 ≤ n ∧ n ≤ 102 then some (n - 97 + 10)
  else if 65 ≤ n ∧ n ≤ 70 then some (n - 65 + 10)
  else none

/-- Go `dtoi` on a string that must be consumed whole: the decimal value, with
the overflow guard `n >= 0xFFFFFF`; `none` when there is no digit, a character
that is not a digit, or the guard fires. -/
def dtoiLoop : List Char → Nat → Option Nat
  | [], n => some n
  | c :: rest, n =>
    match decVal c with
    | none => none
    | some d =>
      let n := n * 10 + d
      if n ≥ 0xFFFFFF then none else dtoiLoop rest n

/-- Go `dtoi(mask)` together with the check `i == len(mask)`. -/
def dtoi (s : List Char) : Option Nat :=
  if s = [] then none else dtoiLoop s 0

/-- Loop state of `parseIPv4Fields`. -/
structure V4State where
  val : Nat
  pos : Nat
  digLen : Nat
  fields : List Nat
deriving DecidableEq, Repr

/-- The loop of Go `parseIPv4Fields`; `prev` is the character before the
current one (`none` at index 0). -/
def parseIPv4Loop : Option Char → List Char → V4State → Option V4State
  | _, [], st => some st
  | prev, c :: rest, st =>
    match decVal c with
    | some d =>
      if st.digLen = 1 ∧ st.val = 0 then none
      else
        let val := st.val * 10 + d
        if val > 255 then none
        else parseIPv4Loop (some c) rest { st with val := val, digLen := st.digLen + 1 }
    | none =>
      if c = '.' then
        if prev = none ∨ rest = [] ∨ prev = some '.' then none
        else if st.pos = 3 then none
        else parseIPv4Loop (some c) rest
          { val := 0, pos := st.pos + 1, digLen := 0, fields := st.fields ++ [st.val] }
      else none

/-- Go `parseIPv4Fields`: the four bytes of a dotted-decimal address. -/
def parseIPv4Fields (s : List Char) : Option (List Nat) :=
  match parseIPv4Loop none s ⟨0, 0, 0, []⟩ with
  | none => none
  | some st => if st.pos < 3 then none else some (st.fields ++ [st.val])

/-- The hexadecimal group loop of Go `parseIPv6`: value, number of digits and
the rest of the input. -/
def parseHexGroup : List Char → Nat → Nat → Option (Nat × Nat × List Char)
  | [], off, acc => some (acc, off, [])
  | c :: rest, off, acc =>
    match hexVal c with
    | none => some (acc, off, c :: rest)
    | some v =>
      let acc := acc * 16 + v
      if off > 3 then none
      else if acc > 0xFFFF then none
      else parseHexGroup rest (off + 1) acc

/-- The main loop of Go `parseIPv6` (`for i < 16`), `i` being the number of
bytes collected in `ip`. The result is the unread input, the bytes and the
position of the ellipsis. -/
def parseIPv6Loop : Nat → List Char → List Nat → Option Nat →
    Option (List Char × List Nat × Option Nat)
  | 0, s, ip, ell => some (s, ip, ell)
  | fuel + 1, s, ip, ell =>
    if ¬ ip.length < 16 then some (s, ip, ell)
    else
      match parseHexGroup s 0 0 with
      | none => none
      | some (acc, off, rest) =>
        if off = 0 then none
        else if rest.head? = some '.' then
          if ell = none ∧ ip.length ≠ 12 then none
          else if ip.length + 4 > 16 then none
          else
            match parseIPv4Fields s with
            | none => none
            | some v4 => some ([], ip ++ v4, ell)
        else
          let ip := ip ++ [acc / 256, acc % 256]
          match rest with
          | [] => some ([], ip, ell)
          | c :: rest1 =>
            if c ≠ ':' then none
            else
              match rest1 with
              | [] => none
              | c1 :: rest2 =>
                if c1 = ':' then
                  if ell ≠ none then none
                  else
                    match rest2 with
                    | [] => some ([], ip, some ip.length)
                    | _ => parseIPv6Loop fuel rest2 ip (some ip.length)
                else parseIPv6Loop fuel rest1 ip ell

/-- Go `parseIPv6` for an address without zone: the sixteen bytes. -/
def parseIPv6 (s : List Char) : Option (List Nat) :=
  if s.contains '%' then none
  else
    let lead := s.take 2 = [':', ':']
    let s1 := if lead then s.drop 2 else s
    if lead ∧ s1 = [] then some (List.replicate 16 0)
    else
      match parseIPv6Loop 16 s1 [] (if lead then some 0 else none) with
      | none => none
      | some (rest, ip, ell) =>
        if rest ≠ [] then none
        else if ip.length < 16 then
          match ell with
          | none => none
          | some e => some (ip.take e ++ List.replicate (16 - ip.length) 0 ++ ip.drop e)
        else if ell ≠ none then none
        else some ip

/-- Go `netip.ParseAddr`: the first of `.`, `:`, `%` selects the syntax. The
result is 4 bytes for IPv4 and 16 bytes for IPv6. -/
def ParseAddr (s : List Char) : Option (List Nat) :=
  match s.find? (fun c => c = '.' ∨ c = ':' ∨ c = '%') with
  | some '.' => parseIPv4Fields s
  | some ':' => parseIPv6 s
  | _ => none

/-- Go `strings.Cut(s, "/")`. -/
def cutSlash : List Char → Option (List Char × List Char)
  | [] => none
  | c :: rest =>
    if c = '/' then some ([], rest)
    else (cutSlash rest).map (fun p => (c :: p.1, p.2))

/-- Go `netip.Addr.As16`. -/
def as16 (a : List Nat) : List Nat :=
  if a.length = IPv4len then v4InV6Prefix ++ a else a

/-- Go `net.ParseCIDR`: the address in 16-byte form and the network, `none`
for a parse error. -/
def ParseCIDR (s : String) : Option (IP × IPNet) :=
  match cutSlash s.toList with
  | none => none
  | some (addr, mask) =>
    match ParseAddr addr with
    | none => none
    | some a =>
      match dtoi mask with
      | none => none
      | some n =>
        if n > a.length * 8 then none
        else
          let m := CIDRMask n a.length
          some (as16 a, { IP := ipMask (as16 a) m, Mask := m })

/-! ## The result of a call that may fail -/

/-- Outcome of a Go call returning `(value, error)` that may also dereference
a nil pointer. -/
inductive Res (ε α : Type) where
  | ok (a : α)
  | err (e : ε)
  | fault
deriving DecidableEq, Repr

/-- The errors `Join` and `Leave` return, one constructor per `return` site of
the source (the payload is what the Go message is formatted from). -/
inductive JoinError where
  /-- `d.getNetwork(nid)` failed. -/
  | networkNotFound (nid : String)
  /-- "could not find endpoint with id %s". -/
  | endpointNotFound (eid : String)
  /-- `network.getEndpoint(eid)` failed (`Leave`). -/
  | endpointLookup (eid : String)
  /-- "error generating an interface name: %v". -/
  | ifaceName (e : String)
  /-- The error of `createIPVlan`, returned as it is. -/
  | createLink (e : String)
  /-- "unable to parse default route %v" (`ifaceGateway`). -/
  | defaultRoute (cidr : String)
  /-- "failed to set an ipvlan l3/l3s mode ipv4 default gateway: %v". -/
  | v4DefaultGateway (e : String)
  /-- "failed to set an ipvlan l3/l3s mode ipv6 default gateway: %v". -/
  | v6DefaultGateway (e : String)
  /-- "could not find a valid ipv4 subnet for endpoint %s". -/
  | subnetNotFoundV4 (eid : String)
  /-- "could not find a valid ipv6 subnet for endpoint %s". -/
  | subnetNotFoundV6 (eid : String)
  /-- "gateway %s is not a valid ipv4 address: %v". -/
  | invalidGatewayV4 (gw : String)
  /-- "gateway %s is not a valid ipv6 address: %v". -/
  | invalidGatewayV6 (gw : String)
  /-- An error of `SetGateway`, `SetGatewayIPv6` or `SetNames`, returned as it is. -/
  | sink (e : String)
  /-- "failed to save ipvlan endpoint %.7s to store: %v". -/
  | store (e : String)
deriving DecidableEq, Repr

/-! ## Subnet resolution -/

/-- One configured subnet: its prefix and its gateway, both CIDR strings. -/
structure ipSubnet where
  SubnetIP : String
  GwIP : String
deriving DecidableEq, Repr

/-- Go `getSubnetForIP`. The address record is a pointer (`none` is `nil`);
`ip.Mask` on a nil record faults. The function has no error result: `Res.err`
is never produced. -/
def getSubnetForIP (ip : Option IPNet) : List ipSubnet → Res JoinError (Option ipSubnet)
  | [] => .ok none
  | s :: rest =>
    match ParseCIDR s.SubnetIP with
    | none => .ok none
    | some (_, snet) =>
      match ip with
      | none => .fault
      | some a =>
        if maskSize snet.Mask ≠ maskSize a.Mask then getSubnetForIP ip rest
        else if Contains snet a.IP then .ok (some s)
        else getSubnetForIP ip rest


/-! ## The driver's data -/

/-- Modelled from the spec: the type `endpoint` is declared outside
`ipvlan_joinleave.go`; §3 gives its attributes (id, optional v4 and v6 address
records, the interface name bound by `Join`). -/
structure endpoint where
  id : String
  addr : Option IPNet
  addrv6 : Option IPNet
  srcName : String
deriving DecidableEq, Repr

/-- Modelled from the spec: the type `configuration` is declared outside
`ipvlan_joinleave.go`; these are the fields `Join` reads. -/
structure configuration where
  Parent : String
  IpvlanMode : String
  IpvlanFlag : String
  Internal : Bool
  Ipv4Subnets : List ipSubnet
  Ipv6Subnets : List ipSubnet
deriving DecidableEq, Repr

/-- Modelled from the spec: the type `network` is declared outside
`ipvlan_joinleave.go`; the endpoints map is an association list keyed by
endpoint id. -/
structure network where
  id : String
  config : configuration
  endpoints : List (String × endpoint)
deriving DecidableEq, Repr

/-- Modelled from the spec: the type `driver` is declared outside
`ipvlan_joinleave.go`; the networks map is an association list keyed by
network id. -/
structure driver where
  networks : List (String × network)
deriving DecidableEq, Repr

/-- Modelled from the spec: the mode constant `modeL2` is declared outside
`ipvlan_joinleave.go`. -/
def modeL2 : String := "l2"

/-- Modelled from the spec: the mode constant `modeL3` is declared outside
`ipvlan_joinleave.go`. -/
def modeL3 : String := "l3"

/-- Modelled from the spec: the mode constant `modeL3S` is declared outside
`ipvlan_joinleave.go`. -/
def modeL3S : String := "l3s"

/-- Modelled from the spec: the constant `containerVethPrefix` is declared
outside `ipvlan_joinleave.go`; §4.3 step 5 calls it a fixed logical name for the
container-side interface. -/
def containerVethPrefix : String := "eth"

/-- Modelled from the spec: the route classification `types.CONNECTED` is
declared outside `ipvlan_joinleave.go`. -/
def CONNECTED : Nat := 1

/-- The constant `defaultV4RouteCidr`. -/
def defaultV4RouteCidr : String := "0.0.0.0/0"

/-- The constant `defaultV6RouteCidr`. -/
def defaultV6RouteCidr : String := "::/0"

/-- Replace the value stored under the first occurrence of a key. -/
def setEntry {β : Type} (k : String) (v : β) : List (String × β) → List (String × β)
  | [] => []
  | (k1, v1) :: rest => if k1 = k then (k, v) :: rest else (k1, v1) :: setEntry k v rest

/-- Modelled from the spec: `driver.getNetwork` is not in the source; §4.3
step 1 says an unknown network is a `NotFound` error. -/
def getNetwork (d : driver) (nid : String) : Res JoinError network :=
  match d.networks.lookup nid with
  | some n => .ok n
  | none => .err (.networkNotFound nid)

/-- Modelled from the spec: `network.endpoint` is not in the source; it looks
the endpoint up by id and yields Go's `nil` (`none`) when there is none. -/
def network.endpoint (n : network) (eid : String) : Option endpoint :=
  n.endpoints.lookup eid

/-- Modelled from the spec: `network.getEndpoint` is not in the source; it has
two ways of reporting a missing endpoint, both of which `Leave` tests: an
error (here for the empty id) and a nil endpoint without error. -/
def network.getEndpoint (n : network) (eid : String) :
    Res JoinError (Option Ipvlan.endpoint) :=
  if eid = "" then .err (.endpointLookup eid)
  else .ok (n.endpoints.lookup eid)

/-- The effect of the assignment `endpoint.srcName = vethName` on the network
that owns the endpoint (the endpoint is shared through a pointer). -/
def network.bindSrcName (n : network) (eid : String) (e : Ipvlan.endpoint)
    (vethName : String) :
    network :=
  { n with endpoints := setEntry eid { e with srcName := vethName } n.endpoints }

/-- The driver after one of its networks has changed. -/
def driver.withNetwork (d : driver) (nid : String) (n : network) : driver :=
  { d with networks := setEntry nid n d.networks }

/-! ## The join-info sink and the host -/

/-- One call on the join-info sink (`driverapi.JoinInfo`) or on the
interface-naming object it hands out. -/
inductive SinkCall where
  | DisableGatewayService
  | SetGateway (gw : IP)
  | SetGatewayIPv6 (gw : IP)
  | AddStaticRoute (destination : IPNet) (routeType : Nat) (nextHop : IP)
  | InterfaceName
  | SetNames (srcName dstPrefix dstName : String)
deriving DecidableEq, Repr

/-- The sink as the driver sees it: for a call, given the calls made before
it, the error it answers (`none` for success). -/
structure Sink where
  respond : List SinkCall → SinkCall → Option String

/-- What the surroundings of `Join` answer: the interface-name generator, the
link creation primitive, the store and the options. -/
structure Host where
  /-- Result of `netutils.GenerateIfaceName(ns.NlHandle(), vethPrefix, vethLen)`. -/
  GenerateIfaceName : Except String String
  /-- Result of `createIPVlan(containerIfName, parent, ipvlanMode, ipvlanFlag)`. -/
  createIPVlan : String → String → String → String → Except String String
  /-- Result of `d.storeUpdate(ep)`: the error, if any. -/
  storeUpdate : endpoint → Option String
  /-- Result of `netlabel.GetIfname(epOpts)`. -/
  GetIfname : String

/-- The static route computed by `ifaceGateway`. -/
structure staticRoute where
  Destination : IPNet
  RouteType : Nat
  NextHop : IP
deriving DecidableEq, Repr

/-- Go `ifaceGateway`. -/
def ifaceGateway (dfNet : String) : Res JoinError staticRoute :=
  match ParseCIDR dfNet with
  | none => .err (.defaultRoute dfNet)
  | some (nh, dst) => .ok { Destination := dst, RouteType := CONNECTED, NextHop := nh }

/-- Go `network.getSubnetforIPv4`. -/
def network.getSubnetforIPv4 (n : network) (ip : Option IPNet) : Res JoinError (Option ipSubnet) :=
  getSubnetForIP ip n.config.Ipv4Subnets

/-- Go `network.getSubnetforIPv6`. -/
def network.getSubnetforIPv6 (n : network) (ip : Option IPNet) : Res JoinError (Option ipSubnet) :=
  getSubnetForIP ip n.config.Ipv6Subnets

/-! ## `Join` -/

/-- A stretch of `Join`: the sink calls made so far and how the stretch ended
(`ok` means that `Join` goes on). -/
structure Stage where
  calls : List SinkCall
  out : Res JoinError Unit
deriving DecidableEq, Repr

/-- Run the next stretch if the previous one did not return. -/
def Stage.next (s : Stage) (f : List SinkCall → Stage) : Stage :=
  match s.out with
  | .ok _ => f s.calls
  | _ => s

/-- Lines 69-79: the v4 default route of a routed network. -/
def routedV4 (k : Sink) (ep : endpoint) (calls : List SinkCall) : Stage :=
  match ep.addr with
  | none => ⟨calls, .ok ()⟩
  | some _ =>
    match ifaceGateway defaultV4RouteCidr with
    | .err e => ⟨calls, .err e⟩
    | .fault => ⟨calls, .fault⟩
    | .ok defaultRoute =>
      let c := SinkCall.AddStaticRoute defaultRoute.Destination defaultRoute.RouteType
        defaultRoute.NextHop
      match k.respond calls c with
      | some e => ⟨calls ++ [c], .err (.v4DefaultGateway e)⟩
      | none => ⟨calls ++ [c], .ok ()⟩

/-- Lines 80-91: the v6 default route of a routed network. -/
def routedV6 (k : Sink) (ep : endpoint) (calls : List SinkCall) : Stage :=
  match ep.addrv6 with
  | none => ⟨calls, .ok ()⟩
  | some _ =>
    match ifaceGateway defaultV6RouteCidr with
    | .err e => ⟨calls, .err e⟩
    | .fault => ⟨calls, .fault⟩
    | .ok default6Route =>
      let c := SinkCall.AddStaticRoute default6Route.Destination default6Route.RouteType
        default6Route.NextHop
      match k.respond calls c with
      | some e => ⟨calls ++ [c], .err (.v6DefaultGateway e)⟩
      | none => ⟨calls ++ [c], .ok ()⟩

/-- Lines 66-91: `case modeL3, modeL3S`. -/
def routedStage (k : Sink) (ep : endpoint) : Stage :=
  (routedV4 k ep [SinkCall.DisableGatewayService]).next (routedV6 k ep)

/-- Lines 94-109: the v4 gateway of a bridged network. The debug statement
after `SetGateway` reads `ep.addr.IP`. -/
def bridgedV4 (k : Sink) (n : network) (ep : endpoint) (eid : String)
    (calls : List SinkCall) : Stage :=
  if n.config.Ipv4Subnets.length > 0 then
    match n.getSubnetforIPv4 ep.addr with
    | .fault => ⟨calls, .fault⟩
    | .err e => ⟨calls, .err e⟩
    | .ok none => ⟨calls, .err (.subnetNotFoundV4 eid)⟩
    | .ok (some s) =>
      match ParseCIDR s.GwIP with
      | none => ⟨calls, .err (.invalidGatewayV4 s.GwIP)⟩
      | some (v4gw, _) =>
        let c := SinkCall.SetGateway v4gw
        match k.respond calls c with
        | some e => ⟨calls ++ [c], .err (.sink e)⟩
        | none =>
          match ep.addr with
          | none => ⟨calls ++ [c], .fault⟩
          | some _ => ⟨calls ++ [c], .ok ()⟩
  else ⟨calls, .ok ()⟩

/-- Lines 110-126: the v6 gateway of a bridged network. The debug statement
after `SetGatewayIPv6` reads `ep.addrv6.IP`. -/
def bridgedV6 (k : Sink) (n : network) (ep : endpoint) (eid : String)
    (calls : List SinkCall) : Stage :=
  if n.config.Ipv6Subnets.length > 0 then
    match n.getSubnetforIPv6 ep.addrv6 with
    | .fault => ⟨calls, .fault⟩
    | .err e => ⟨calls, .err e⟩
    | .ok none => ⟨calls, .err (.subnetNotFoundV6 eid)⟩
    | .ok (some s) =>
      match ParseCIDR s.GwIP with
      | none => ⟨calls, .err (.invalidGatewayV6 s.GwIP)⟩
      | some (v6gw, _) =>
        let c := SinkCall.SetGatewayIPv6 v6gw
        match k.respond calls c with
        | some e => ⟨calls ++ [c], .err (.sink e)⟩
        | none =>
          match ep.addrv6 with
          | none => ⟨calls ++ [c], .fault⟩
          | some _ => ⟨calls ++ [c], .ok ()⟩
  else ⟨calls, .ok ()⟩

/-- Lines 127-130: with no subnet of either family, no gateway. -/
def bridgedNoSubnets (n : network) (calls : List SinkCall) : Stage :=
  if n.config.Ipv4Subnets.length = 0 ∧ n.config.Ipv6Subnets.length = 0 then
    ⟨calls ++ [SinkCall.DisableGatewayService], .ok ()⟩
  else ⟨calls, .ok ()⟩

/-- Lines 92-130: `case modeL2`. -/
def bridgedStage (k : Sink) (n : network) (ep : endpoint) (eid : String) : Stage :=
  ((bridgedV4 k n ep eid []).next (bridgedV6 k n ep eid)).next (bridgedNoSubnets n)

/-- Lines 132-145: the internal network. Each debug statement reads the
address of its family (`ep.addr.IP`, `ep.addrv6.IP`) when that family has a
configured subnet. -/
def internalStage (n : network) (ep : endpoint) : Stage :=
  if n.config.Ipv4Subnets.length > 0 ∧ ep.addr = none then ⟨[], .fault⟩
  else if n.config.Ipv6Subnets.length > 0 ∧ ep.addrv6 = none then ⟨[], .fault⟩
  else ⟨[SinkCall.DisableGatewayService], .ok ()⟩

/-- Lines 64-145: the gateway and route instructions, by kind of network. A
mode that is none of the three makes no call. -/
def gatewayStage (k : Sink) (n : network) (ep : endpoint) (eid : String) : Stage :=
  if !n.config.Internal then
    if n.config.IpvlanMode = modeL3 ∨ n.config.IpvlanMode = modeL3S then routedStage k ep
    else if n.config.IpvlanMode = modeL2 then bridgedStage k n ep eid
    else ⟨[], .ok ()⟩
  else internalStage n ep

/-- Everything one `Join` call does: what it returns, the driver afterwards,
the sink calls in order, the links it created and the records it saved. -/
structure JoinResult where
  out : Res JoinError Unit
  d : driver
  calls : List SinkCall
  links : List String
  stored : List endpoint
deriving DecidableEq, Repr

/-- Lines 146-155: name the interface in the sandbox and save the endpoint. -/
def finishJoin (h : Host) (k : Sink) (d : driver) (ep : endpoint) (vethName : String)
    (calls : List SinkCall) : JoinResult :=
  let calls := calls ++ [SinkCall.InterfaceName]
  let c := SinkCall.SetNames vethName containerVethPrefix h.GetIfname
  match k.respond calls c with
  | some e => ⟨.err (.sink e), d, calls ++ [c], [vethName], []⟩
  | none =>
    match h.storeUpdate ep with
    | some e => ⟨.err (.store e), d, calls ++ [c], [vethName], []⟩
    | none => ⟨.ok (), d, calls ++ [c], [vethName], [ep]⟩

/-- Lines 49-57: generate a name for the interface and create the ipvlan link;
the name of the created link, or the error `Join` returns. -/
def createLink (h : Host) (n : network) : Res JoinError String :=
  match h.GenerateIfaceName with
  | .error e => .err (.ifaceName e)
  | .ok containerIfName =>
    match h.createIPVlan containerIfName n.config.Parent n.config.IpvlanMode
        n.config.IpvlanFlag with
    | .error e => .err (.createLink e)
    | .ok vethName => .ok vethName

/-- Lines 64-155: what `Join` does once the name is bound on the endpoint. -/
def joinBound (h : Host) (k : Sink) (d : driver) (n : network) (ep : endpoint)
    (eid vethName : String) : JoinResult :=
  let g := gatewayStage k n ep eid
  match g.out with
  | .ok _ => finishJoin h k d ep vethName g.calls
  | out => ⟨out, d, g.calls, [vethName], []⟩

/-- Go `driver.Join`. -/
def Join (h : Host) (k : Sink) (d : driver) (nid eid : String) : JoinResult :=
  match getNetwork d nid with
  | .err e => ⟨.err e, d, [], [], []⟩
  | .fault => ⟨.fault, d, [], [], []⟩
  | .ok n =>
    match n.endpoint eid with
    | none => ⟨.err (.endpointNotFound eid), d, [], [], []⟩
    | some endpoint =>
      match createLink h n with
      | .err e => ⟨.err e, d, [], [], []⟩
      | .fault => ⟨.fault, d, [], [], []⟩
      | .ok vethName =>
        let n := n.bindSrcName eid endpoint vethName
        let d := d.withNetwork nid n
        match n.endpoint eid with
        | none => ⟨.err (.endpointNotFound eid), d, [], [vethName], []⟩
        | some ep => joinBound h k d n ep eid vethName

/-! ## `Leave` -/

/-- What one `Leave` call does: what it returns and the driver afterwards. -/
structure LeaveResult where
  out : Res JoinError Unit
  d : driver
deriving DecidableEq, Repr

/-- Go `driver.Leave`. -/
def Leave (d : driver) (nid eid : String) : LeaveResult :=
  match getNetwork d nid with
  | .err e => ⟨.err e, d⟩
  | .fault => ⟨.fault, d⟩
  | .ok network =>
    match network.getEndpoint eid with
    | .err e => ⟨.err e, d⟩
    | .fault => ⟨.fault, d⟩
    | .ok none => ⟨.err (.endpointNotFound eid), d⟩
    | .ok (some _) => ⟨.ok (), d⟩

/-! ## Vocabulary of the statements -/

/-- The test the resolution loop applies to one subnet, in the words of the
specification: the configured prefix parses, its prefix length equals that of
the address record, and its network contains the address. -/
def subnetMatches (a : IPNet) (s : ipSubnet) : Bool :=
  match ParseCIDR s.SubnetIP with
  | none => false
  | some (_, snet) => maskSize snet.Mask == maskSize a.Mask && Contains snet a.IP

/-- The errors the specification calls `NotFound`: the network or the endpoint
reference is unknown. -/
def JoinError.isNotFound : JoinError → Bool
  | .networkNotFound _ => true
  | .endpointNotFound _ => true
  | .endpointLookup _ => true
  | _ => false

/-- The errors the specification calls `SubnetNotFound`. -/
def JoinError.isSubnetNotFound : JoinError → Bool
  | .subnetNotFoundV4 _ => true
  | .subnetNotFoundV6 _ => true
  | _ => false

/-- The interface-naming calls. -/
def SinkCall.isNaming : SinkCall → Bool
  | .InterfaceName => true
  | .SetNames _ _ _ => true
  | _ => false

/-- The `SetGateway` calls. -/
def SinkCall.isSetGateway : SinkCall → Bool
  | .SetGateway _ => true
  | _ => false

/-- The `SetGatewayIPv6` calls. -/
def SinkCall.isSetGatewayIPv6 : SinkCall → Bool
  | .SetGatewayIPv6 _ => true
  | _ => false

/-- The `AddStaticRoute` calls. -/
def SinkCall.isAddStaticRoute : SinkCall → Bool
  | .AddStaticRoute _ _ _ => true
  | _ => false

/-- The gateway and route calls: everything but interface naming. -/
def SinkCall.isGatewayOrRoute (c : SinkCall) : Bool := !c.isNaming

/-- The interface name bound on an endpoint of the driver, if the endpoint
exists. -/
def driver.srcName (d : driver) (nid eid : String) : Option String :=
  match d.networks.lookup nid with
  | none => none
  | some n => (n.endpoints.lookup eid).map (·.srcName)

/-- The errors `Join` returns before it binds the interface name on the
endpoint (lines 40-57). -/
def JoinError.beforeBinding : JoinError → Bool
  | .networkNotFound _ => true
  | .endpointNotFound _ => true
  | .ifaceName _ => true
  | .createLink _ => true
  | _ => false

/-- The destination `0.0.0.0/0`. -/
def defaultV4Destination : IPNet := { IP := [0, 0, 0, 0], Mask := [0, 0, 0, 0] }

/-- The address `0.0.0.0` in 16-byte form. -/
def unspecifiedV4 : IP := [0, 0, 0, 0, 0, 0, 0, 0, 0, 0, 0xff, 0xff, 0, 0, 0, 0]

/-- The destination `::/0`. -/
def defaultV6Destination : IPNet :=
  { IP := [0, 0, 0, 0, 0, 0, 0, 0, 0, 0, 0, 0, 0, 0, 0, 0],
    Mask := [0, 0, 0, 0, 0, 0, 0, 0, 0, 0, 0, 0, 0, 0, 0, 0] }

/-- The address `::`. -/
def unspecifiedV6 : IP := [0, 0, 0, 0, 0, 0, 0, 0, 0, 0, 0, 0, 0, 0, 0, 0]

/-- The v4 default route call of a routed join. -/
def v4DefaultRouteCall : SinkCall :=
  .AddStaticRoute defaultV4Destination CONNECTED unspecifiedV4

/-- The v6 default route call of a routed join. -/
def v6DefaultRouteCall : SinkCall :=
  .AddStaticRoute defaultV6Destination CONNECTED unspecifiedV6

/-- The network an address record belongs to: its address under its mask. -/
def networkOf (a : IPNet) : IPNet := { IP := ipMask a.IP a.Mask, Mask := a.Mask }

/-! ## Concrete inputs -/

/-- The address record of an endpoint written as a CIDR string: the address
itself (not the network number) with the mask of its prefix, as libnetwork's
`types.ParseCIDR` builds it; `none` when the string does not parse. -/
def addrOf (s : String) : Option IPNet :=
  match ParseCIDR s with
  | none => none
  | some (ip, snet) => some { IP := ip, Mask := snet.Mask }

/-- A sink that accepts every call. -/
def okSink : Sink := { respond := fun _ _ => none }

/-- A host on which name generation, link creation and the store succeed. -/
def okHost : Host :=
  { GenerateIfaceName := .ok "veth0a1b2c3",
    createIPVlan := fun containerIfName _ _ _ => .ok containerIfName,
    storeUpdate := fun _ => none,
    GetIfname := "" }

/-- An endpoint that has not been joined. -/
def mkEndpoint (id : String) (addr addrv6 : Option IPNet) : endpoint :=
  { id := id, addr := addr, addrv6 := addrv6, srcName := "" }

/-- A network `"net1"` of the given configuration and endpoints. -/
def mkNetwork (cfg : configuration) (eps : List endpoint) : network :=
  network.mk "net1" cfg (eps.map (fun e => (e.id, e)))

/-- A driver with a network `"net1"`. -/
def oneNetwork (n : network) : driver := { networks := [("net1", n)] }

/-- A routed (L3) network without configured subnets, holding an endpoint with
the v4 address `10.1.1.5/24` and one with `192.168.9.9/24`. -/
def routedNetwork : network :=
  mkNetwork
    { Parent := "eth0", IpvlanMode := modeL3, IpvlanFlag := "bridge", Internal := false,
      Ipv4Subnets := [], Ipv6Subnets := [] }
    [mkEndpoint "ep1" (addrOf "10.1.1.5/24") none,
     mkEndpoint "ep2" (addrOf "192.168.9.9/24") none]

/-- The driver of `routedNetwork`. -/
def routedDriver : driver := oneNetwork routedNetwork

/-- A bridged (L2) network whose only subnet is `10.0.0.0/24`, holding an
endpoint with the address `192.168.9.9/24` and one with `10.0.0.7/24`. -/
def bridgedNetwork : network :=
  mkNetwork
    { Parent := "eth0", IpvlanMode := modeL2, IpvlanFlag := "bridge", Internal := false,
      Ipv4Subnets := [⟨"10.0.0.0/24", "10.0.0.1/24"⟩], Ipv6Subnets := [] }
    [mkEndpoint "ep1" (addrOf "192.168.9.9/24") none,
     mkEndpoint "ep2" (addrOf "10.0.0.7/24") none]

/-- The driver of `bridgedNetwork`. -/
def bridgedDriver : driver := oneNetwork bridgedNetwork

/-- A bridged (L2) dual-stack network with two v4 subnets and one v6 subnet,
holding an endpoint with `10.0.1.7/24` and `fd00::7/64`, and an endpoint whose
v4 address is configured but whose v6 address belongs to no subnet. -/
def dualStackNetwork : network :=
  mkNetwork
    { Parent := "eth0", IpvlanMode := modeL2, IpvlanFlag := "bridge", Internal := false,
      Ipv4Subnets := [⟨"10.0.0.0/24", "10.0.0.1/24"⟩, ⟨"10.0.1.0/24", "10.0.1.1/24"⟩],
      Ipv6Subnets := [⟨"fd00::/64", "fd00::1/64"⟩] }
    [mkEndpoint "ep1" (addrOf "10.0.1.7/24") (addrOf "fd00::7/64"),
     mkEndpoint "ep2" (addrOf "10.0.1.8/24") (addrOf "fd99::8/64")]

/-- The driver of `dualStackNetwork`. -/
def dualStackDriver : driver := oneNetwork dualStackNetwork

/-- An internal dual-stack network holding an endpoint that has a v4 address
but no v6 address, and an endpoint that has both. -/
def internalNetwork : network :=
  mkNetwork
    { Parent := "", IpvlanMode := modeL2, IpvlanFlag := "bridge", Internal := true,
      Ipv4Subnets := [⟨"10.0.0.0/24", "10.0.0.1/24"⟩],
      Ipv6Subnets := [⟨"fd00::/64", "fd00::1/64"⟩] }
    [mkEndpoint "ep1" (addrOf "10.0.0.7/24") none,
     mkEndpoint "ep2" (addrOf "10.0.0.8/24") (addrOf "fd00::8/64")]

/-- The driver of `internalNetwork`. -/
def internalDriver : driver := oneNetwork internalNetwork

/-- The address record `10.1.1.5/24`. -/
def addr10_1_1_5 : IPNet :=
  { IP := [0, 0, 0, 0, 0, 0, 0, 0, 0, 0, 0xff, 0xff, 10, 1, 1, 5], Mask := [255, 255, 255, 0] }

/-- Two subnets that both hold `10.1.1.5/24`, told apart by their gateways. -/
def twoMatching : List ipSubnet :=
  [⟨"10.1.1.0/24", "10.1.1.1/24"⟩, ⟨"10.1.1.128/24", "10.1.1.254/24"⟩]

/-- A host whose link creation returns a name of its own, different from the
generated name it is given and built from all four of its arguments. -/
def renamingHost : Host :=
  { GenerateIfaceName := .ok "vethgen",
    createIPVlan := fun containerIfName parent ipvlanMode ipvlanFlag =>
      .ok (containerIfName ++ "@" ++ parent ++ "." ++ ipvlanMode ++ "." ++ ipvlanFlag),
    storeUpdate := fun _ => none,
    GetIfname := "" }

/-- The `SetNames` calls. -/
def SinkCall.isSetNames : SinkCall → Bool
  | .SetNames _ _ _ => true
  | _ => false

/-- A bridged (L2) network without any configured subnet, holding an endpoint
without address. -/
def noSubnetNetwork : network :=
  mkNetwork
    { Parent := "eth0", IpvlanMode := modeL2, IpvlanFlag := "bridge", Internal := false,
      Ipv4Subnets := [], Ipv6Subnets := [] }
    [mkEndpoint "ep1" none none]

/-- The driver of `noSubnetNetwork`. -/
def noSubnetDriver : driver := oneNetwork noSubnetNetwork

/-- A bridged (L2) dual-stack network holding an endpoint that has a v6 address
but no v4 address. -/
def missingV4Network : network :=
  mkNetwork
    { Parent := "eth0", IpvlanMode := modeL2, IpvlanFlag := "bridge", Internal := false,
      Ipv4Subnets := [⟨"10.0.0.0/24", "10.0.0.1/24"⟩],
      Ipv6Subnets := [⟨"fd00::/64", "fd00::1/64"⟩] }
    [mkEndpoint "ep1" none (addrOf "fd00::7/64")]

/-- The driver of `missingV4Network`. -/
def missingV4Driver : driver := oneNetwork missingV4Network

end Ipvlan

namespace Ovmanager

/-! ## The overlay manager: VXLAN identifier allocation -/

/-- Modelled from the spec: the overlay manager's driver is not in the source
(only `ovmanager_test.go` is). §3 (Identifier Pool) and §4.1 give its state: the
bounds of the identifier range (`vxlanIDStart` is the name the test uses), the
identifiers in use, globally reserved values among them, and the identifiers
each network holds. -/
structure driver where
  vxlanIDStart : Nat
  vxlanIDEnd : Nat
  inUse : List Nat
  networks : List (String × List Nat)
deriving DecidableEq, Repr

/-- Modelled from the spec: the failures of §4.1, the pool being exhausted and
an explicit identifier being out of range or in use. -/
inductive AllocError where
  | resourceExhausted
  | invalidIdentifier (id : Nat)
deriving DecidableEq, Repr

/-- Modelled from the spec: one IPAM record (§6), carrying the allocated pool
prefix. -/
structure IPAMData where
  Pool : Ipvlan.IPNet
deriving DecidableEq, Repr

/-- Modelled from the spec: the least identifier from `lo` upward that is not
in the list (§4.1: fresh identifiers are taken in ascending order, each
currently unused). The first argument bounds the search; the length of the
list is enough. -/
def firstFree : Nat → List Nat → Nat → Nat
  | 0, _, lo => lo
  | fuel + 1, l, lo =>
    if lo ∈ l then firstFree fuel (l.filter (fun y => y ≠ lo)) (lo + 1) else lo

/-- Modelled from the spec: `n` fresh identifiers from `lo` upward, none above
`hi` and none in use, in ascending order; `none` when the free pool cannot
satisfy the count (§4.1). -/
def allocFresh (hi : Nat) (inUse : List Nat) : Nat → Nat → Option (List Nat)
  | 0, _ => some []
  | n + 1, lo =>
    let x := firstFree inUse.length inUse lo
    if x ≤ hi then (allocFresh hi inUse n (x + 1)).map (fun ids => x :: ids) else none

/-- Modelled from the spec: an explicit identifier is valid when it is within
the range and currently unused (§4.1). -/
def validID (d : driver) (x : Nat) : Bool :=
  decide (d.vxlanIDStart ≤ x) && decide (x ≤ d.vxlanIDEnd) && !(d.inUse.contains x)

/-- Modelled from the spec: the driver after a network was given identifiers. -/
def driver.record (d : driver) (networkID : String) (ids : List Nat) : driver :=
  { d with inUse := ids ++ d.inUse, networks := (networkID, ids) :: d.networks }

/-- Modelled from the spec: `Allocate(networkID, requestedCount, explicitIDs)`
of §4.1. Without explicit identifiers, `requestedCount` fresh ones; with
explicit identifiers, each is validated and then exactly
`min(len(explicitIDs), requestedCount)` of them are taken in the order
supplied. -/
def Allocate (d : driver) (networkID : String) (requestedCount : Nat)
    (explicitIDs : List Nat) : Except AllocError (List Nat × driver) :=
  if explicitIDs = [] then
    match allocFresh d.vxlanIDEnd d.inUse requestedCount d.vxlanIDStart with
    | none => .error .resourceExhausted
    | some ids => .ok (ids, d.record networkID ids)
  else
    match explicitIDs.find? (fun x => !validID d x) with
    | some x => .error (.invalidIdentifier x)
    | none =>
      let ids := explicitIDs.take (min explicitIDs.length requestedCount)
      .ok (ids, d.record networkID ids)

/-- Modelled from the spec: `NetworkAllocate` of §4.4, one identifier per IPAM
record; the explicit identifiers are those of the option
`netlabel.OverlayVxlanIDList`, the result is the identifier list. -/
def NetworkAllocate (d : driver) (id : String) (vxlanIDList : List Nat)
    (ipamData : List IPAMData) : Except AllocError (List Nat × driver) :=
  Allocate d id ipamData.length vxlanIDList

/-- Modelled from the spec: `NetworkFree` of §4.4 and `Free` of §4.1: every
identifier held by the network is released; freeing an unknown network is a
no-op and not an error. -/
def NetworkFree (d : driver) (id : String) : Except AllocError driver :=
  let held := ((d.networks.filter (fun p => p.1 = id)).map (fun p => p.2)).flatten
  .ok { d with inUse := d.inUse.filter (fun x => !held.contains x),
               networks := d.networks.filter (fun p => p.1 ≠ id) }

/-- Modelled from the spec: the identifier list as the test reads it back,
decimal numbers separated by commas. -/
def encodeVxlanIDList (ids : List Nat) : String :=
  ",".intercalate (ids.map (fun x => toString x))

/-- The driver the test starts from (`newDriver()`): nothing in use; the bounds
are those of the example of §8. -/
def newDriver : driver :=
  { vxlanIDStart := 4096, vxlanIDEnd := 16777215, inUse := [], networks := [] }

/-- The IPAM records of the tests: the pools `10.1.1.0/24` and `10.1.2.0/24`. -/
def testIpamData : List IPAMData :=
  (["10.1.1.0/24", "10.1.2.0/24"].filterMap Ipvlan.addrOf).map (fun p => { Pool := p })

end Ovmanager

namespace Ipvlan

/-! ## Subnet resolution: theorems -/

theorem getSubnetForIP_cons_some (a : IPNet) (s : ipSubnet) (rest : List ipSubnet) :
    getSubnetForIP (some a) (s :: rest) =
      match ParseCIDR s.SubnetIP with
      | none => .ok none
      | some (_, snet) =>
        if maskSize snet.Mask ≠ maskSize a.Mask then getSubnetForIP (some a) rest
        else if Contains snet a.IP then .ok (some s)
        else getSubnetForIP (some a) rest := by
  rw [getSubnetForIP]

/-- A nil address record is only tolerated when the loop never reads it. -/
theorem getSubnetForIP_none_result (subnets : List ipSubnet) (r : Option ipSubnet) :
    getSubnetForIP none subnets = .ok r → r = none := by
  cases subnets with
  | nil => intro h; simp [getSubnetForIP] at h; exact h.symm
  | cons s rest =>
    rw [getSubnetForIP]
    cases h : ParseCIDR s.SubnetIP with
    | none => intro h1; simp at h1; exact h1.symm
    | some p => intro h1; simp at h1

/-- Subnet resolution never reports an error value: it returns or it faults. -/
theorem getSubnetForIP_ne_err (ip : Option IPNet) (subnets : List ipSubnet) (e : JoinError) :
    getSubnetForIP ip subnets ≠ .err e := by
  induction subnets with
  | nil => simp [getSubnetForIP]
  | cons s rest ih =>
    rw [getSubnetForIP]
    cases h : ParseCIDR s.SubnetIP with
    | none => simp
    | some p =>
      cases ip with
      | none => simp
      | some a =>
        simp only
        split
        · exact ih
        · split
          · simp
          · exact ih

theorem getSubnetForIP_some_sound (a : IPNet) (subnets : List ipSubnet) (s : ipSubnet) :
    getSubnetForIP (some a) subnets = .ok (some s) →
    s ∈ subnets ∧ ∃ gw snet, ParseCIDR s.SubnetIP = some (gw, snet) ∧
      maskSize snet.Mask = maskSize a.Mask ∧ Contains snet a.IP = true := by
  induction subnets with
  | nil => intro h; simp [getSubnetForIP] at h
  | cons t rest ih =>
    rw [getSubnetForIP_cons_some]
    cases hp : ParseCIDR t.SubnetIP with
    | none => intro h; simp at h
    | some p =>
      obtain ⟨gw, snet⟩ := p
      simp only
      by_cases hm : maskSize snet.Mask ≠ maskSize a.Mask
      · rw [if_pos hm]
        intro h
        obtain ⟨h1, h2⟩ := ih h
        exact ⟨List.mem_cons_of_mem _ h1, h2⟩
      · rw [if_neg hm]
        by_cases hc : Contains snet a.IP = true
        · rw [if_pos hc]
          intro h
          have hs : t = s := by simpa using h
          subst hs
          exact ⟨List.mem_cons_self _ _, gw, snet, hp, not_not.mp hm, hc⟩
        · rw [if_neg hc]
          intro h
          obtain ⟨h1, h2⟩ := ih h
          exact ⟨List.mem_cons_of_mem _ h1, h2⟩

theorem subnetMatches_eq (a : IPNet) (s : ipSubnet) :
    subnetMatches a s = true ↔ ∃ gw snet, ParseCIDR s.SubnetIP = some (gw, snet) ∧
      maskSize snet.Mask = maskSize a.Mask ∧ Contains snet a.IP = true := by
  unfold subnetMatches
  cases hp : ParseCIDR s.SubnetIP with
  | none => simp
  | some p =>
    obtain ⟨gw, snet⟩ := p
    simp only [Bool.and_eq_true, beq_iff_eq]
    constructor
    · intro h
      exact ⟨gw, snet, rfl, h⟩
    · rintro ⟨gw1, snet1, h1, h2⟩
      cases h1
      exact h2

/-- One step of the loop on a subnet whose prefix parses. -/
theorem getSubnetForIP_cons_parsed (a : IPNet) (s : ipSubnet) (rest : List ipSubnet)
    (hp : (ParseCIDR s.SubnetIP).isSome = true) :
    getSubnetForIP (some a) (s :: rest) =
      if subnetMatches a s = true then .ok (some s) else getSubnetForIP (some a) rest := by
  rw [getSubnetForIP_cons_some]
  unfold subnetMatches
  cases h : ParseCIDR s.SubnetIP with
  | none => rw [h] at hp; simp at hp
  | some p =>
    obtain ⟨gw, snet⟩ := p
    simp only
    by_cases hm : maskSize snet.Mask = maskSize a.Mask
    · by_cases hc : Contains snet a.IP = true <;> simp [hm, hc]
    · simp [hm]

theorem getSubnetForIP_eq_find (a : IPNet) (subnets : List ipSubnet)
    (hp : ∀ s ∈ subnets, (ParseCIDR s.SubnetIP).isSome = true) :
    getSubnetForIP (some a) subnets = .ok (subnets.find? (subnetMatches a)) := by
  induction subnets with
  | nil => rfl
  | cons s rest ih =>
    rw [getSubnetForIP_cons_parsed a s rest (hp s (List.mem_cons_self _ _))]
    by_cases hm : subnetMatches a s = true
    · simp [hm]
    · rw [if_neg hm, ih (fun t ht => hp t (List.mem_cons_of_mem _ ht))]
      simp [List.find?, hm]

theorem getSubnetForIP_bad_prefix (a : IPNet) (pre post : List ipSubnet) (bad : ipSubnet)
    (hbad : ParseCIDR bad.SubnetIP = none)
    (hpre : ∀ s ∈ pre, subnetMatches a s = false) :
    getSubnetForIP (some a) (pre ++ bad :: post) = .ok none := by
  induction pre with
  | nil =>
    rw [List.nil_append, getSubnetForIP_cons_some, hbad]
  | cons s rest ih =>
    have hs : subnetMatches a s = false := hpre s (List.mem_cons_self _ _)
    have hrest := ih (fun t ht => hpre t (List.mem_cons_of_mem _ ht))
    rw [List.cons_append, getSubnetForIP_cons_some]
    unfold subnetMatches at hs
    cases hp : ParseCIDR s.SubnetIP with
    | none => rfl
    | some p =>
      obtain ⟨gw, snet⟩ := p
      rw [hp] at hs
      simp only
      by_cases hm : maskSize snet.Mask = maskSize a.Mask
      · have hc : ¬ (Contains snet a.IP = true) := by
          intro hc
          simp [hm, hc] at hs
        simp [hm, hc, hrest]
      · simp [hm, hrest]

/-- C1: whenever `getSubnetForIP` returns a subnet, that subnet is an element of
the list, its configured prefix parses, its prefix length equals the prefix
length of the address record and its network contains the address. In
particular `10.1.1.5/24` is not matched to `10.0.0.0/8`, whose range does
contain it: the result is none. -/
theorem getSubnetForIP_returns_exact_prefix_match :
    (∀ (ip : Option IPNet) (subnets : List ipSubnet) (s : ipSubnet),
      getSubnetForIP ip subnets = .ok (some s) →
        s ∈ subnets ∧ ∃ a gw snet, ip = some a ∧ ParseCIDR s.SubnetIP = some (gw, snet) ∧
          maskSize snet.Mask = maskSize a.Mask ∧ Contains snet a.IP = true) ∧
    (∀ gw : String,
      getSubnetForIP (addrOf "10.1.1.5/24") [⟨"10.0.0.0/8", gw⟩] = .ok none) ∧
    (∃ ip snet, ParseCIDR "10.0.0.0/8" = some (ip, snet) ∧
      Contains snet addr10_1_1_5.IP = true ∧ addrOf "10.1.1.5/24" = some addr10_1_1_5) := by
  refine ⟨?_, ?_, ?_⟩
  · intro ip subnets s h
    cases ip with
    | none =>
      have := getSubnetForIP_none_result subnets (some s) h
      simp at this
    | some a =>
      obtain ⟨h1, gw, snet, h2⟩ := getSubnetForIP_some_sound a subnets s h
      exact ⟨h1, a, gw, snet, rfl, h2⟩
  · intro gw
    have ha : addrOf "10.1.1.5/24" = some addr10_1_1_5 := by decide
    have hp : ParseCIDR "10.0.0.0/8" =
        some ([0, 0, 0, 0, 0, 0, 0, 0, 0, 0, 0xff, 0xff, 10, 0, 0, 0],
          { IP := [10, 0, 0, 0], Mask := [255, 0, 0, 0] }) := by decide
    rw [ha, getSubnetForIP_cons_some]
    simp only [hp]
    have hm : maskSize [255, 0, 0, 0] ≠ maskSize addr10_1_1_5.Mask := by decide
    rw [if_pos hm]
    rfl
  · exact ⟨[0, 0, 0, 0, 0, 0, 0, 0, 0, 0, 0xff, 0xff, 10, 0, 0, 0],
      { IP := [10, 0, 0, 0], Mask := [255, 0, 0, 0] }, by decide, by decide, by decide⟩

/-- Witness of C1 on the two-subnet list: the subnet returned for `10.1.1.5/24`
is in the list, parses, has prefix length 24 and contains the address. -/
theorem getSubnetForIP_returns_exact_prefix_match_witness :
    getSubnetForIP (some addr10_1_1_5) twoMatching = .ok (some ⟨"10.1.1.0/24", "10.1.1.1/24"⟩) ∧
    ((⟨"10.1.1.0/24", "10.1.1.1/24"⟩ : ipSubnet) ∈ twoMatching ∧
      ∃ a gw snet, some addr10_1_1_5 = some a ∧
        ParseCIDR (⟨"10.1.1.0/24", "10.1.1.1/24"⟩ : ipSubnet).SubnetIP = some (gw, snet) ∧
        maskSize snet.Mask = maskSize a.Mask ∧ Contains snet a.IP = true) :=
  ⟨by decide,
   getSubnetForIP_returns_exact_prefix_match.1 (some addr10_1_1_5) twoMatching
     ⟨"10.1.1.0/24", "10.1.1.1/24"⟩ (by decide)⟩

/-- C2: on a list all of whose prefixes parse, `getSubnetForIP` returns the
first subnet in list order whose prefix length equals that of the address and
whose network contains the address, and it returns none exactly when no subnet
of the list qualifies. -/
theorem getSubnetForIP_returns_first_match (a : IPNet) (subnets : List ipSubnet)
    (hp : ∀ s ∈ subnets, (ParseCIDR s.SubnetIP).isSome = true) :
    getSubnetForIP (some a) subnets = .ok (subnets.find? (subnetMatches a)) ∧
    (∀ s, getSubnetForIP (some a) subnets = .ok (some s) ↔
      subnetMatches a s = true ∧ ∃ pre post, subnets = pre ++ s :: post ∧
        ∀ t ∈ pre, subnetMatches a t = false) ∧
    (getSubnetForIP (some a) subnets = .ok none ↔
      ∀ s ∈ subnets, subnetMatches a s = false) := by
  have h := getSubnetForIP_eq_find a subnets hp
  refine ⟨h, ?_, ?_⟩
  · intro s
    rw [h]
    constructor
    · intro hs
      have hs1 : subnets.find? (subnetMatches a) = some s := by simpa using hs
      rw [List.find?_eq_some] at hs1
      obtain ⟨h1, pre, post, h2, h3⟩ := hs1
      exact ⟨h1, pre, post, h2, fun t ht => by simpa using h3 t ht⟩
    · rintro ⟨h1, pre, post, h2, h3⟩
      have : subnets.find? (subnetMatches a) = some s := by
        rw [List.find?_eq_some]
        exact ⟨h1, pre, post, h2, fun t ht => by simpa using h3 t ht⟩
      rw [this]
  · rw [h]
    constructor
    · intro hs
      have hs1 : subnets.find? (subnetMatches a) = none := by simpa using hs
      rw [List.find?_eq_none] at hs1
      exact fun s hs => by simpa using hs1 s hs
    · intro hs
      have : subnets.find? (subnetMatches a) = none := by
        rw [List.find?_eq_none]
        exact fun s h1 => by simpa using hs s h1
      rw [this]

/-- Witness of C2: both subnets of the list qualify for `10.1.1.5/24` and the
earlier one is returned. -/
theorem getSubnetForIP_returns_first_match_witness :
    (∀ s ∈ twoMatching, subnetMatches addr10_1_1_5 s = true) ∧
    getSubnetForIP (some addr10_1_1_5) twoMatching =
      .ok (some ⟨"10.1.1.0/24", "10.1.1.1/24"⟩) :=
  ⟨by decide,
   (getSubnetForIP_returns_first_match addr10_1_1_5 twoMatching (by decide)).1.trans
     (by decide)⟩

/-- C3: when a subnet's configured prefix fails to parse and no subnet before
it matches the address, `getSubnetForIP` returns none whatever follows the bad
entry: the search stops there, the bad entry is not skipped. -/
theorem getSubnetForIP_parse_failure_stops_search (a : IPNet) (pre post : List ipSubnet)
    (bad : ipSubnet) (hbad : ParseCIDR bad.SubnetIP = none)
    (hpre : ∀ s ∈ pre, subnetMatches a s = false) :
    getSubnetForIP (some a) (pre ++ bad :: post) = .ok none :=
  getSubnetForIP_bad_prefix a pre post bad hbad hpre

/-- Witness of C3: a subnet that matches `10.1.1.5/24` is hidden by the
malformed entry before it. -/
theorem getSubnetForIP_parse_failure_stops_search_witness :
    subnetMatches addr10_1_1_5 ⟨"10.1.1.0/24", "10.1.1.1/24"⟩ = true ∧
    getSubnetForIP (some addr10_1_1_5)
      ([⟨"10.0.0.0/8", "10.0.0.1/8"⟩] ++ ⟨"10.1.1.0", "10.1.1.1/24"⟩ ::
        [⟨"10.1.1.0/24", "10.1.1.1/24"⟩]) = .ok none :=
  ⟨by decide,
   getSubnetForIP_parse_failure_stops_search addr10_1_1_5 [⟨"10.0.0.0/8", "10.0.0.1/8"⟩]
     [⟨"10.1.1.0/24", "10.1.1.1/24"⟩] ⟨"10.1.1.0", "10.1.1.1/24"⟩ (by decide) (by decide)⟩

/-! ## `Join`: the shape of a call -/

theorem lookup_setEntry {β : Type} (k : String) (v x : β) (l : List (String × β))
    (h : l.lookup k = some x) : (setEntry k v l).lookup k = some v := by
  induction l with
  | nil => simp at h
  | cons p rest ih =>
    obtain ⟨k1, v1⟩ := p
    by_cases hk : k1 = k
    · simp [setEntry, hk]
    · have hne : (k == k1) = false := by
        simpa using fun h1 : k = k1 => hk h1.symm
      simp only [setEntry, hk, if_false, List.lookup, hne] at h ⊢
      exact ih h

theorem getNetwork_ok_iff (d : driver) (nid : String) (n : network) :
    getNetwork d nid = .ok n ↔ d.networks.lookup nid = some n := by
  unfold getNetwork
  cases d.networks.lookup nid <;> simp

theorem createLink_ne_fault (h : Host) (n : network) : createLink h n ≠ .fault := by
  unfold createLink
  cases h.GenerateIfaceName with
  | error e => simp
  | ok c =>
    simp only
    cases h.createIPVlan c n.config.Parent n.config.IpvlanMode n.config.IpvlanFlag <;> simp

theorem createLink_err_beforeBinding (h : Host) (n : network) (e : JoinError)
    (he : createLink h n = .err e) : e.beforeBinding = true := by
  unfold createLink at he
  cases hg : h.GenerateIfaceName with
  | error e1 =>
    rw [hg] at he
    simp only [Res.err.injEq] at he
    subst he
    rfl
  | ok c =>
    rw [hg] at he
    simp only at he
    cases hc : h.createIPVlan c n.config.Parent n.config.IpvlanMode n.config.IpvlanFlag with
    | error e1 =>
      rw [hc] at he
      simp only [Res.err.injEq] at he
      subst he
      rfl
    | ok v =>
      rw [hc] at he
      simp at he

theorem bindSrcName_endpoint (n : network) (eid : String) (ep0 : endpoint) (v : String)
    (he : n.endpoint eid = some ep0) :
    (n.bindSrcName eid ep0 v).endpoint eid = some { ep0 with srcName := v } := by
  unfold network.endpoint network.bindSrcName
  exact lookup_setEntry eid _ ep0 n.endpoints he

theorem bindSrcName_config (n : network) (eid : String) (ep0 : endpoint) (v : String) :
    (n.bindSrcName eid ep0 v).config = n.config := rfl

/-- Once the network and the endpoint are found and the link is created,
`Join` is the rest of its body run on the endpoint with the name bound. -/
theorem Join_of_created (h : Host) (k : Sink) (d : driver) (nid eid : String) (n : network)
    (ep0 : endpoint) (v : String) (hn : getNetwork d nid = .ok n)
    (he : n.endpoint eid = some ep0) (hc : createLink h n = .ok v) :
    Join h k d nid eid =
      joinBound h k (d.withNetwork nid (n.bindSrcName eid ep0 v)) (n.bindSrcName eid ep0 v)
        { ep0 with srcName := v } eid v := by
  unfold Join
  simp only [hn, he, hc, bindSrcName_endpoint n eid ep0 v he]

/-- A `Join` that does not create the link returns an error and changes nothing. -/
theorem Join_of_createLink_err (h : Host) (k : Sink) (d : driver) (nid eid : String)
    (n : network) (ep0 : endpoint) (e : JoinError) (hn : getNetwork d nid = .ok n)
    (he : n.endpoint eid = some ep0) (hc : createLink h n = .err e) :
    Join h k d nid eid = ⟨.err e, d, [], [], []⟩ := by
  unfold Join
  simp only [hn, he, hc]

/-- Every `Join` either fails before binding the name, leaving the driver as
it was, or runs the rest of its body on the bound endpoint. -/
theorem Join_cases (h : Host) (k : Sink) (d : driver) (nid eid : String) :
    (∃ e, e.beforeBinding = true ∧ Join h k d nid eid = ⟨.err e, d, [], [], []⟩) ∨
    (∃ n ep0 v, getNetwork d nid = .ok n ∧ n.endpoint eid = some ep0 ∧
      createLink h n = .ok v ∧
      Join h k d nid eid =
        joinBound h k (d.withNetwork nid (n.bindSrcName eid ep0 v))
          (n.bindSrcName eid ep0 v) { ep0 with srcName := v } eid v) := by
  cases hn : getNetwork d nid with
  | err e =>
    left
    refine ⟨e, ?_, ?_⟩
    · unfold getNetwork at hn
      cases hl : d.networks.lookup nid with
      | none =>
        rw [hl] at hn
        simp only [Res.err.injEq] at hn
        subst hn
        rfl
      | some n =>
        rw [hl] at hn
        simp at hn
    · unfold Join
      simp only [hn]
  | fault =>
    unfold getNetwork at hn
    cases hl : d.networks.lookup nid <;> rw [hl] at hn <;> simp at hn
  | ok n =>
    cases he : n.endpoint eid with
    | none =>
      left
      refine ⟨.endpointNotFound eid, rfl, ?_⟩
      unfold Join
      simp only [hn, he]
    | some ep0 =>
      cases hc : createLink h n with
      | fault => exact absurd hc (createLink_ne_fault h n)
      | err e =>
        left
        exact ⟨e, createLink_err_beforeBinding h n e hc,
          Join_of_createLink_err h k d nid eid n ep0 e hn he hc⟩
      | ok v =>
        right
        exact ⟨n, ep0, v, rfl, he, hc, Join_of_created h k d nid eid n ep0 v hn he hc⟩

theorem finishJoin_calls (h : Host) (k : Sink) (d : driver) (ep : endpoint) (v : String)
    (calls : List SinkCall) :
    (finishJoin h k d ep v calls).calls =
      calls ++ [.InterfaceName, .SetNames v containerVethPrefix h.GetIfname] := by
  unfold finishJoin
  simp only
  cases k.respond (calls ++ [SinkCall.InterfaceName])
      (SinkCall.SetNames v containerVethPrefix h.GetIfname) with
  | some e => simp
  | none => cases h.storeUpdate ep <;> simp

theorem finishJoin_d (h : Host) (k : Sink) (d : driver) (ep : endpoint) (v : String)
    (calls : List SinkCall) : (finishJoin h k d ep v calls).d = d := by
  unfold finishJoin
  simp only
  cases k.respond (calls ++ [SinkCall.InterfaceName])
      (SinkCall.SetNames v containerVethPrefix h.GetIfname) with
  | some e => rfl
  | none => cases h.storeUpdate ep <;> rfl

theorem finishJoin_links (h : Host) (k : Sink) (d : driver) (ep : endpoint) (v : String)
    (calls : List SinkCall) : (finishJoin h k d ep v calls).links = [v] := by
  unfold finishJoin
  simp only
  cases k.respond (calls ++ [SinkCall.InterfaceName])
      (SinkCall.SetNames v containerVethPrefix h.GetIfname) with
  | some e => rfl
  | none => cases h.storeUpdate ep <;> rfl

theorem finishJoin_err_not_before (h : Host) (k : Sink) (d : driver) (ep : endpoint)
    (v : String) (calls : List SinkCall) (e : JoinError)
    (he : (finishJoin h k d ep v calls).out = .err e) : e.beforeBinding = false := by
  unfold finishJoin at he
  simp only at he
  cases hk : k.respond (calls ++ [SinkCall.InterfaceName])
      (SinkCall.SetNames v containerVethPrefix h.GetIfname) with
  | some e1 =>
    rw [hk] at he
    simp only [Res.err.injEq] at he
    subst he
    rfl
  | none =>
    rw [hk] at he
    cases hs : h.storeUpdate ep with
    | some e1 =>
      rw [hs] at he
      simp only [Res.err.injEq] at he
      subst he
      rfl
    | none =>
      rw [hs] at he
      simp at he

theorem joinBound_calls_of_ok (h : Host) (k : Sink) (d : driver) (n : network)
    (ep : endpoint) (eid v : String) (hg : (gatewayStage k n ep eid).out = .ok ()) :
    (joinBound h k d n ep eid v).calls =
      (gatewayStage k n ep eid).calls ++
        [.InterfaceName, .SetNames v containerVethPrefix h.GetIfname] := by
  unfold joinBound
  simp only [hg]
  exact finishJoin_calls h k d ep v _

theorem joinBound_of_not_ok (h : Host) (k : Sink) (d : driver) (n : network)
    (ep : endpoint) (eid v : String) (hg : (gatewayStage k n ep eid).out ≠ .ok ()) :
    joinBound h k d n ep eid v =
      ⟨(gatewayStage k n ep eid).out, d, (gatewayStage k n ep eid).calls, [v], []⟩ := by
  unfold joinBound
  cases hout : (gatewayStage k n ep eid).out with
  | ok u => exact absurd hout hg
  | err e => simp only [hout]
  | fault => simp only [hout]

theorem joinBound_d (h : Host) (k : Sink) (d : driver) (n : network)
    (ep : endpoint) (eid v : String) : (joinBound h k d n ep eid v).d = d := by
  unfold joinBound
  cases hout : (gatewayStage k n ep eid).out with
  | ok u => simp only [hout]; exact finishJoin_d h k d ep v _
  | err e => simp only [hout]
  | fault => simp only [hout]

theorem joinBound_links (h : Host) (k : Sink) (d : driver) (n : network)
    (ep : endpoint) (eid v : String) : (joinBound h k d n ep eid v).links = [v] := by
  unfold joinBound
  cases hout : (gatewayStage k n ep eid).out with
  | ok u => simp only [hout]; exact finishJoin_links h k d ep v _
  | err e => simp only [hout]
  | fault => simp only [hout]

theorem joinBound_ok_gateway (h : Host) (k : Sink) (d : driver) (n : network)
    (ep : endpoint) (eid v : String) (ho : (joinBound h k d n ep eid v).out = .ok ()) :
    (gatewayStage k n ep eid).out = .ok () := by
  unfold joinBound at ho
  cases hout : (gatewayStage k n ep eid).out with
  | ok u => rfl
  | err e => simp [hout] at ho
  | fault => simp [hout] at ho

/-! ## `Join` on a routed network -/

theorem ifaceGateway_v4 :
    ifaceGateway defaultV4RouteCidr =
      .ok { Destination := defaultV4Destination, RouteType := CONNECTED,
            NextHop := unspecifiedV4 } := by
  decide

theorem ifaceGateway_v6 :
    ifaceGateway defaultV6RouteCidr =
      .ok { Destination := defaultV6Destination, RouteType := CONNECTED,
            NextHop := unspecifiedV6 } := by
  decide

theorem routedV4_eq (k : Sink) (ep : endpoint) (calls : List SinkCall) :
    routedV4 k ep calls =
      match ep.addr with
      | none => ⟨calls, .ok ()⟩
      | some _ =>
        match k.respond calls v4DefaultRouteCall with
        | some e => ⟨calls ++ [v4DefaultRouteCall], .err (.v4DefaultGateway e)⟩
        | none => ⟨calls ++ [v4DefaultRouteCall], .ok ()⟩ := by
  unfold routedV4
  rw [ifaceGateway_v4]
  rfl

theorem routedV6_eq (k : Sink) (ep : endpoint) (calls : List SinkCall) :
    routedV6 k ep calls =
      match ep.addrv6 with
      | none => ⟨calls, .ok ()⟩
      | some _ =>
        match k.respond calls v6DefaultRouteCall with
        | some e => ⟨calls ++ [v6DefaultRouteCall], .err (.v6DefaultGateway e)⟩
        | none => ⟨calls ++ [v6DefaultRouteCall], .ok ()⟩ := by
  unfold routedV6
  rw [ifaceGateway_v6]
  rfl

theorem gatewayStage_routed (k : Sink) (n : network) (ep : endpoint) (eid : String)
    (hint : n.config.Internal = false)
    (hmode : n.config.IpvlanMode = modeL3 ∨ n.config.IpvlanMode = modeL3S) :
    gatewayStage k n ep eid = routedStage k ep := by
  unfold gatewayStage
  simp [hint, hmode]

/-- With a sink that accepts every call, the routed stage disables the gateway
service and adds one default route per address family the endpoint holds. -/
theorem routedStage_of_accepting (k : Sink) (ep : endpoint)
    (hk : ∀ hist c, k.respond hist c = none) :
    routedStage k ep =
      ⟨[SinkCall.DisableGatewayService] ++
        (if ep.addr.isSome then [v4DefaultRouteCall] else []) ++
        (if ep.addrv6.isSome then [v6DefaultRouteCall] else []), .ok ()⟩ := by
  unfold routedStage Stage.next
  rw [routedV4_eq]
  cases h4 : ep.addr <;> cases h6 : ep.addrv6 <;> simp [hk, routedV6_eq, h6]

/-- Whatever the sink answers, the calls of the routed stage are the gateway
service being disabled followed by at most the two fixed default routes; the
v4 route is attempted whenever the endpoint has a v4 address. -/
theorem routedStage_calls (k : Sink) (ep : endpoint) :
    ((routedStage k ep).calls = [SinkCall.DisableGatewayService] ∨
     (routedStage k ep).calls = [SinkCall.DisableGatewayService, v4DefaultRouteCall] ∨
     (routedStage k ep).calls = [SinkCall.DisableGatewayService, v6DefaultRouteCall] ∨
     (routedStage k ep).calls =
       [SinkCall.DisableGatewayService, v4DefaultRouteCall, v6DefaultRouteCall]) ∧
    (ep.addr ≠ none → v4DefaultRouteCall ∈ (routedStage k ep).calls) ∧
    (ep.addrv6 ≠ none →
      (ep.addr = none ∨ k.respond [SinkCall.DisableGatewayService] v4DefaultRouteCall = none) →
      v6DefaultRouteCall ∈ (routedStage k ep).calls) := by
  unfold routedStage Stage.next
  rw [routedV4_eq]
  cases h4 : ep.addr with
  | none =>
    simp only [routedV6_eq]
    cases h6 : ep.addrv6 with
    | none => simp
    | some a6 =>
      cases k.respond [SinkCall.DisableGatewayService] v6DefaultRouteCall <;> simp
  | some a4 =>
    simp only
    cases hk4 : k.respond [SinkCall.DisableGatewayService] v4DefaultRouteCall with
    | some e => simp
    | none =>
      simp only [routedV6_eq]
      cases h6 : ep.addrv6 with
      | none => simp
      | some a6 =>
        simp only
        cases k.respond ([SinkCall.DisableGatewayService] ++ [v4DefaultRouteCall])
          v6DefaultRouteCall <;> simp

/-- C4: on a non-internal L3 or L3S network, a `Join` whose interface creation
and sink calls succeed issues, as gateway and route calls, `DisableGatewayService`
once, then the `0.0.0.0/0` route exactly when the endpoint has a v4 address,
then the `::/0` route exactly when it has a v6 address; `SetGateway` and
`SetGatewayIPv6` are never called. With only a v4 address there is exactly one
`DisableGatewayService` and exactly one `AddStaticRoute`. -/
theorem Join_routed_gateway_calls (h : Host) (k : Sink) (d : driver) (nid eid : String)
    (n : network) (ep0 : endpoint) (v : String)
    (hn : getNetwork d nid = .ok n) (he : n.endpoint eid = some ep0)
    (hc : createLink h n = .ok v) (hint : n.config.Internal = false)
    (hmode : n.config.IpvlanMode = modeL3 ∨ n.config.IpvlanMode = modeL3S)
    (hk : ∀ hist c, k.respond hist c = none) :
    (Join h k d nid eid).calls =
      [SinkCall.DisableGatewayService] ++
        (if ep0.addr.isSome then [v4DefaultRouteCall] else []) ++
        (if ep0.addrv6.isSome then [v6DefaultRouteCall] else []) ++
        [SinkCall.InterfaceName, SinkCall.SetNames v containerVethPrefix h.GetIfname] ∧
    (Join h k d nid eid).calls.filter SinkCall.isGatewayOrRoute =
      [SinkCall.DisableGatewayService] ++
        (if ep0.addr.isSome then [v4DefaultRouteCall] else []) ++
        (if ep0.addrv6.isSome then [v6DefaultRouteCall] else []) ∧
    (∀ c ∈ (Join h k d nid eid).calls, c.isSetGateway = false ∧ c.isSetGatewayIPv6 = false) ∧
    (ep0.addr ≠ none → ep0.addrv6 = none →
      (Join h k d nid eid).calls.count SinkCall.DisableGatewayService = 1 ∧
      (Join h k d nid eid).calls.countP SinkCall.isAddStaticRoute = 1) := by
  have hg : gatewayStage k (n.bindSrcName eid ep0 v) { ep0 with srcName := v } eid =
      ⟨[SinkCall.DisableGatewayService] ++
        (if ep0.addr.isSome then [v4DefaultRouteCall] else []) ++
        (if ep0.addrv6.isSome then [v6DefaultRouteCall] else []), .ok ()⟩ := by
    rw [gatewayStage_routed k (n.bindSrcName eid ep0 v) _ eid hint hmode,
      routedStage_of_accepting k _ hk]
  have hcalls : (Join h k d nid eid).calls =
      [SinkCall.DisableGatewayService] ++
        (if ep0.addr.isSome then [v4DefaultRouteCall] else []) ++
        (if ep0.addrv6.isSome then [v6DefaultRouteCall] else []) ++
        [SinkCall.InterfaceName, SinkCall.SetNames v containerVethPrefix h.GetIfname] := by
    rw [Join_of_created h k d nid eid n ep0 v hn he hc,
      joinBound_calls_of_ok h k _ _ _ eid v (by rw [hg]), hg]
  refine ⟨hcalls, ?_, ?_, ?_⟩
  · rw [hcalls]
    cases ep0.addr <;> cases ep0.addrv6 <;>
      simp [SinkCall.isGatewayOrRoute, SinkCall.isNaming, v4DefaultRouteCall,
        v6DefaultRouteCall]
  · rw [hcalls]
    cases ep0.addr <;> cases ep0.addrv6 <;>
      simp [SinkCall.isSetGateway, SinkCall.isSetGatewayIPv6, v4DefaultRouteCall,
        v6DefaultRouteCall]
  · intro h4 h6
    rw [hcalls, h6]
    cases h4a : ep0.addr with
    | none => exact absurd h4a h4
    | some a =>
      simp [SinkCall.isAddStaticRoute, v4DefaultRouteCall, List.count_cons,
        List.countP_cons]

/-- Witness of C4: `Join` of the endpoint `10.1.1.5/24` (v4 only) on the routed
network. -/
theorem Join_routed_gateway_calls_witness :
    (Join okHost okSink routedDriver "net1" "ep1").calls.filter SinkCall.isGatewayOrRoute =
      [SinkCall.DisableGatewayService, v4DefaultRouteCall] ∧
    (Join okHost okSink routedDriver "net1" "ep1").out = .ok () :=
  ⟨(Join_routed_gateway_calls okHost okSink routedDriver "net1" "ep1"
      routedNetwork
      (mkEndpoint "ep1" (addrOf "10.1.1.5/24") none) "veth0a1b2c3"
      (by decide) (by decide) (by decide) (by decide) (by decide)
      (fun _ _ => rfl)).2.1.trans (by decide),
   by decide⟩

/-- C5, as the code has it: in routed mode every `AddStaticRoute` call of `Join`
is one of two fixed routes, `0.0.0.0/0` through `0.0.0.0` and `::/0` through
`::`, the next hop being the address part of the default route constant and
not a function of the endpoint; the v4 route is handed to the sink whenever the
endpoint has a v4 address, the v6 route whenever it has a v6 address and the
sink did not refuse the v4 route. -/
theorem Join_routed_next_hop_fixed (h : Host) (k : Sink) (d : driver) (nid eid : String)
    (n : network) (ep0 : endpoint) (v : String)
    (hn : getNetwork d nid = .ok n) (he : n.endpoint eid = some ep0)
    (hc : createLink h n = .ok v) (hint : n.config.Internal = false)
    (hmode : n.config.IpvlanMode = modeL3 ∨ n.config.IpvlanMode = modeL3S) :
    (∀ dst rt nh, SinkCall.AddStaticRoute dst rt nh ∈ (Join h k d nid eid).calls →
      (dst = defaultV4Destination ∧ nh = unspecifiedV4) ∨
      (dst = defaultV6Destination ∧ nh = unspecifiedV6)) ∧
    (ep0.addr ≠ none → v4DefaultRouteCall ∈ (Join h k d nid eid).calls) ∧
    (ep0.addrv6 ≠ none →
      (ep0.addr = none ∨ k.respond [SinkCall.DisableGatewayService] v4DefaultRouteCall = none) →
      v6DefaultRouteCall ∈ (Join h k d nid eid).calls) ∧
    ParseCIDR defaultV4RouteCidr = some (unspecifiedV4, defaultV4Destination) ∧
    ParseCIDR defaultV6RouteCidr = some (unspecifiedV6, defaultV6Destination) := by
  have hg : gatewayStage k (n.bindSrcName eid ep0 v) { ep0 with srcName := v } eid =
      routedStage k { ep0 with srcName := v } :=
    gatewayStage_routed k (n.bindSrcName eid ep0 v) _ eid hint hmode
  obtain ⟨hshape, h4, h6⟩ := routedStage_calls k { ep0 with srcName := v }
  have hsub : ∀ c, c ∈ (Join h k d nid eid).calls →
      c ∈ (routedStage k { ep0 with srcName := v }).calls ∨ c.isNaming = true := by
    intro c hcm
    rw [Join_of_created h k d nid eid n ep0 v hn he hc] at hcm
    by_cases hok : (gatewayStage k (n.bindSrcName eid ep0 v) { ep0 with srcName := v } eid).out
        = .ok ()
    · rw [joinBound_calls_of_ok h k _ _ _ eid v hok, hg] at hcm
      rcases List.mem_append.mp hcm with h1 | h1
      · exact Or.inl h1
      · right
        simp only [List.mem_cons, List.mem_singleton, List.not_mem_nil, or_false] at h1
        rcases h1 with h1 | h1 <;> subst h1 <;> rfl
    · rw [joinBound_of_not_ok h k _ _ _ eid v hok, hg] at hcm
      exact Or.inl hcm
  have hsup : ∀ c, c ∈ (routedStage k { ep0 with srcName := v }).calls →
      c ∈ (Join h k d nid eid).calls := by
    intro c hcm
    rw [Join_of_created h k d nid eid n ep0 v hn he hc]
    by_cases hok : (gatewayStage k (n.bindSrcName eid ep0 v) { ep0 with srcName := v } eid).out
        = .ok ()
    · rw [joinBound_calls_of_ok h k _ _ _ eid v hok, hg]
      exact List.mem_append_left _ hcm
    · rw [joinBound_of_not_ok h k _ _ _ eid v hok, hg]
      exact hcm
  refine ⟨?_, fun h4a => hsup _ (h4 h4a), fun h6a hk4 => hsup _ (h6 h6a hk4), by decide,
    by decide⟩
  intro dst rt nh hmem
  rcases hsub _ hmem with h1 | h1
  · rcases hshape with hs | hs | hs | hs <;> rw [hs] at h1 <;>
      simp [v4DefaultRouteCall, v6DefaultRouteCall] at h1 <;> aesop
  · simp [SinkCall.isNaming] at h1

/-- Witness of C5 as amended: the endpoint `10.1.1.5/24` on the routed network
is handed the route through `0.0.0.0`. -/
theorem Join_routed_next_hop_fixed_witness :
    v4DefaultRouteCall ∈ (Join okHost okSink routedDriver "net1" "ep1").calls :=
  (Join_routed_next_hop_fixed okHost okSink routedDriver "net1" "ep1"
      routedNetwork
      (mkEndpoint "ep1" (addrOf "10.1.1.5/24") none) "veth0a1b2c3"
      (by decide) (by decide) (by decide) (by decide) (by decide)).2.1 (by decide)

/-- C5 fails as stated: two endpoints of one routed network whose v4 addresses
lie in different networks (`10.1.1.5/24`, `192.168.9.9/24`) are handed the same
`0.0.0.0/0` route, and its next hop `0.0.0.0` lies in the network of neither
address. -/
theorem Join_routed_next_hop_not_from_address :
    (Join okHost okSink routedDriver "net1" "ep1").calls.filter SinkCall.isAddStaticRoute =
      [SinkCall.AddStaticRoute defaultV4Destination CONNECTED unspecifiedV4] ∧
    (Join okHost okSink routedDriver "net1" "ep2").calls.filter SinkCall.isAddStaticRoute =
      [SinkCall.AddStaticRoute defaultV4Destination CONNECTED unspecifiedV4] ∧
    (∃ a1 a2, addrOf "10.1.1.5/24" = some a1 ∧ addrOf "192.168.9.9/24" = some a2 ∧
      networkOf a1 ≠ networkOf a2 ∧
      Contains (networkOf a1) unspecifiedV4 = false ∧
      Contains (networkOf a2) unspecifiedV4 = false) := by
  refine ⟨by decide, by decide, ?_⟩
  exact ⟨{ IP := [0, 0, 0, 0, 0, 0, 0, 0, 0, 0, 0xff, 0xff, 10, 1, 1, 5],
           Mask := [255, 255, 255, 0] },
         { IP := [0, 0, 0, 0, 0, 0, 0, 0, 0, 0, 0xff, 0xff, 192, 168, 9, 9],
           Mask := [255, 255, 255, 0] }, by decide, by decide, by decide, by decide, by decide⟩

/-! ## `Join` on a bridged network -/

theorem gatewayStage_bridged (k : Sink) (n : network) (ep : endpoint) (eid : String)
    (hint : n.config.Internal = false) (hmode : n.config.IpvlanMode = modeL2) :
    gatewayStage k n ep eid = bridgedStage k n ep eid := by
  have h3 : ¬ (modeL2 = modeL3 ∨ modeL2 = modeL3S) := by decide
  unfold gatewayStage
  simp [hint, hmode, h3]

/-- How the v4 gateway stretch of a bridged join can end. -/
theorem bridgedV4_cases (k : Sink) (n : network) (ep : endpoint) (eid : String)
    (calls : List SinkCall) :
    (n.config.Ipv4Subnets = [] ∧ bridgedV4 k n ep eid calls = ⟨calls, .ok ()⟩) ∨
    (n.config.Ipv4Subnets ≠ [] ∧
      ((getSubnetForIP ep.addr n.config.Ipv4Subnets = .fault ∧
          bridgedV4 k n ep eid calls = ⟨calls, .fault⟩) ∨
       (getSubnetForIP ep.addr n.config.Ipv4Subnets = .ok none ∧
          bridgedV4 k n ep eid calls = ⟨calls, .err (.subnetNotFoundV4 eid)⟩) ∨
       (∃ s, getSubnetForIP ep.addr n.config.Ipv4Subnets = .ok (some s) ∧
          ParseCIDR s.GwIP = none ∧
          bridgedV4 k n ep eid calls = ⟨calls, .err (.invalidGatewayV4 s.GwIP)⟩) ∨
       (∃ s gw snet e, getSubnetForIP ep.addr n.config.Ipv4Subnets = .ok (some s) ∧
          ParseCIDR s.GwIP = some (gw, snet) ∧
          k.respond calls (SinkCall.SetGateway gw) = some e ∧
          bridgedV4 k n ep eid calls = ⟨calls ++ [SinkCall.SetGateway gw], .err (.sink e)⟩) ∨
       (∃ s gw snet, getSubnetForIP ep.addr n.config.Ipv4Subnets = .ok (some s) ∧
          ParseCIDR s.GwIP = some (gw, snet) ∧
          k.respond calls (SinkCall.SetGateway gw) = none ∧
          bridgedV4 k n ep eid calls = ⟨calls ++ [SinkCall.SetGateway gw], .ok ()⟩))) := by
  by_cases h0 : n.config.Ipv4Subnets = []
  · left
    refine ⟨h0, ?_⟩
    unfold bridgedV4
    simp [h0]
  · right
    refine ⟨h0, ?_⟩
    have hpos : n.config.Ipv4Subnets.length > 0 := List.length_pos.mpr h0
    unfold bridgedV4 network.getSubnetforIPv4
    rw [if_pos hpos]
    cases hs : getSubnetForIP ep.addr n.config.Ipv4Subnets with
    | fault => exact Or.inl ⟨rfl, rfl⟩
    | err e => exact absurd hs (getSubnetForIP_ne_err _ _ e)
    | ok r =>
      cases r with
      | none => exact Or.inr (Or.inl ⟨rfl, rfl⟩)
      | some s =>
        cases hp : ParseCIDR s.GwIP with
        | none =>
          refine Or.inr (Or.inr (Or.inl ⟨s, rfl, hp, ?_⟩))
          simp only [hp]
        | some p =>
          obtain ⟨gw, snet⟩ := p
          cases hk : k.respond calls (SinkCall.SetGateway gw) with
          | some e =>
            refine Or.inr (Or.inr (Or.inr (Or.inl ⟨s, gw, snet, e, rfl, hp, hk, ?_⟩)))
            simp only [hp, hk]
          | none =>
            refine Or.inr (Or.inr (Or.inr (Or.inr ⟨s, gw, snet, rfl, hp, hk, ?_⟩)))
            cases ha : ep.addr with
            | none =>
              rw [ha] at hs
              have := getSubnetForIP_none_result _ _ hs
              simp at this
            | some a => simp only [hp, hk]

/-- How the v6 gateway stretch of a bridged join can end. -/
theorem bridgedV6_cases (k : Sink) (n : network) (ep : endpoint) (eid : String)
    (calls : List SinkCall) :
    (n.config.Ipv6Subnets = [] ∧ bridgedV6 k n ep eid calls = ⟨calls, .ok ()⟩) ∨
    (n.config.Ipv6Subnets ≠ [] ∧
      ((getSubnetForIP ep.addrv6 n.config.Ipv6Subnets = .fault ∧
          bridgedV6 k n ep eid calls = ⟨calls, .fault⟩) ∨
       (getSubnetForIP ep.addrv6 n.config.Ipv6Subnets = .ok none ∧
          bridgedV6 k n ep eid calls = ⟨calls, .err (.subnetNotFoundV6 eid)⟩) ∨
       (∃ s, getSubnetForIP ep.addrv6 n.config.Ipv6Subnets = .ok (some s) ∧
          ParseCIDR s.GwIP = none ∧
          bridgedV6 k n ep eid calls = ⟨calls, .err (.invalidGatewayV6 s.GwIP)⟩) ∨
       (∃ s gw snet e, getSubnetForIP ep.addrv6 n.config.Ipv6Subnets = .ok (some s) ∧
          ParseCIDR s.GwIP = some (gw, snet) ∧
          k.respond calls (SinkCall.SetGatewayIPv6 gw) = some e ∧
          bridgedV6 k n ep eid calls = ⟨calls ++ [SinkCall.SetGatewayIPv6 gw], .err (.sink e)⟩) ∨
       (∃ s gw snet, getSubnetForIP ep.addrv6 n.config.Ipv6Subnets = .ok (some s) ∧
          ParseCIDR s.GwIP = some (gw, snet) ∧
          k.respond calls (SinkCall.SetGatewayIPv6 gw) = none ∧
          bridgedV6 k n ep eid calls = ⟨calls ++ [SinkCall.SetGatewayIPv6 gw], .ok ()⟩))) := by
  by_cases h0 : n.config.Ipv6Subnets = []
  · left
    refine ⟨h0, ?_⟩
    unfold bridgedV6
    simp [h0]
  · right
    refine ⟨h0, ?_⟩
    have hpos : n.config.Ipv6Subnets.length > 0 := List.length_pos.mpr h0
    unfold bridgedV6 network.getSubnetforIPv6
    rw [if_pos hpos]
    cases hs : getSubnetForIP ep.addrv6 n.config.Ipv6Subnets with
    | fault => exact Or.inl ⟨rfl, rfl⟩
    | err e => exact absurd hs (getSubnetForIP_ne_err _ _ e)
    | ok r =>
      cases r with
      | none => exact Or.inr (Or.inl ⟨rfl, rfl⟩)
      | some s =>
        cases hp : ParseCIDR s.GwIP with
        | none =>
          refine Or.inr (Or.inr (Or.inl ⟨s, rfl, hp, ?_⟩))
          simp only [hp]
        | some p =>
          obtain ⟨gw, snet⟩ := p
          cases hk : k.respond calls (SinkCall.SetGatewayIPv6 gw) with
          | some e =>
            refine Or.inr (Or.inr (Or.inr (Or.inl ⟨s, gw, snet, e, rfl, hp, hk, ?_⟩)))
            simp only [hp, hk]
          | none =>
            refine Or.inr (Or.inr (Or.inr (Or.inr ⟨s, gw, snet, rfl, hp, hk, ?_⟩)))
            cases ha : ep.addrv6 with
            | none =>
              rw [ha] at hs
              have := getSubnetForIP_none_result _ _ hs
              simp at this
            | some a => simp only [hp, hk]

theorem bridgedV4_not_found (k : Sink) (n : network) (ep : endpoint) (eid : String)
    (calls : List SinkCall) (h0 : n.config.Ipv4Subnets ≠ [])
    (hs : getSubnetForIP ep.addr n.config.Ipv4Subnets = .ok none) :
    bridgedV4 k n ep eid calls = ⟨calls, .err (.subnetNotFoundV4 eid)⟩ := by
  unfold bridgedV4 network.getSubnetforIPv4
  rw [if_pos (List.length_pos.mpr h0), hs]

theorem bridgedV6_not_found (k : Sink) (n : network) (ep : endpoint) (eid : String)
    (calls : List SinkCall) (h0 : n.config.Ipv6Subnets ≠ [])
    (hs : getSubnetForIP ep.addrv6 n.config.Ipv6Subnets = .ok none) :
    bridgedV6 k n ep eid calls = ⟨calls, .err (.subnetNotFoundV6 eid)⟩ := by
  unfold bridgedV6 network.getSubnetforIPv6
  rw [if_pos (List.length_pos.mpr h0), hs]

theorem bridgedNoSubnets_eq (n : network) (calls : List SinkCall) :
    bridgedNoSubnets n calls =
      ⟨calls ++ (if n.config.Ipv4Subnets = [] ∧ n.config.Ipv6Subnets = []
        then [SinkCall.DisableGatewayService] else []), .ok ()⟩ := by
  unfold bridgedNoSubnets
  simp only [List.length_eq_zero]
  split <;> simp

/-- What the sink receives from `case modeL2` when the v4 lookup finds no
subnet: nothing, and the stage ends with the v4 subnet-not-found error. -/
theorem bridgedStage_v4_not_found (k : Sink) (n : network) (ep : endpoint) (eid : String)
    (h0 : n.config.Ipv4Subnets ≠ [])
    (hs : getSubnetForIP ep.addr n.config.Ipv4Subnets = .ok none) :
    bridgedStage k n ep eid = ⟨[], .err (.subnetNotFoundV4 eid)⟩ := by
  unfold bridgedStage
  rw [bridgedV4_not_found k n ep eid [] h0 hs]
  rfl

/-- What the sink receives from `case modeL2` when the v6 lookup finds no
subnet: at most the v4 gateway; the stage does not end well, and ends with the
v6 subnet-not-found error when the v4 stretch went through. -/
theorem bridgedStage_v6_not_found (k : Sink) (n : network) (ep : endpoint) (eid : String)
    (h0 : n.config.Ipv6Subnets ≠ [])
    (hs : getSubnetForIP ep.addrv6 n.config.Ipv6Subnets = .ok none) :
    (bridgedStage k n ep eid).out ≠ .ok () ∧
    (∀ c ∈ (bridgedStage k n ep eid).calls, c.isSetGateway = true) ∧
    ((n.config.Ipv4Subnets = [] ∨
        ∃ s gw snet, getSubnetForIP ep.addr n.config.Ipv4Subnets = .ok (some s) ∧
          ParseCIDR s.GwIP = some (gw, snet) ∧
          k.respond [] (SinkCall.SetGateway gw) = none) →
      (bridgedStage k n ep eid).out = .err (.subnetNotFoundV6 eid)) := by
  unfold bridgedStage
  rcases bridgedV4_cases k n ep eid [] with ⟨h4, hb⟩ | ⟨h4, hb⟩
  · rw [hb]
    simp [Stage.next, bridgedV6_not_found k n ep eid _ h0 hs]
  · rcases hb with ⟨hf, hb⟩ | ⟨hf, hb⟩ | ⟨s, hf, hp, hb⟩ | ⟨s, gw, snet, e, hf, hp, hk, hb⟩ |
      ⟨s, gw, snet, hf, hp, hk, hb⟩
    · rw [hb]
      simp [Stage.next, h4, hf]
    · rw [hb]
      simp [Stage.next, h4, hf]
    · rw [hb]
      simp [Stage.next, h4, hf, hp]
    · rw [hb]
      simp only [Stage.next, List.nil_append, List.mem_singleton, ne_eq, h4, false_or]
      refine ⟨by simp, fun c hc => by subst hc; rfl, ?_⟩
      rintro ⟨s1, gw1, snet1, hf1, hp1, hk1⟩
      rw [hf] at hf1
      simp only [Res.ok.injEq, Option.some.injEq] at hf1
      subst hf1
      rw [hp] at hp1
      simp only [Option.some.injEq, Prod.mk.injEq] at hp1
      obtain ⟨hgw, -⟩ := hp1
      subst hgw
      rw [hk] at hk1
      simp at hk1
    · rw [hb]
      simp only [Stage.next, bridgedV6_not_found k n ep eid _ h0 hs]
      refine ⟨by simp, fun c hc => ?_, fun _ => trivial⟩
      simp only [List.nil_append, List.mem_singleton] at hc
      subst hc
      rfl

/-- What the sink receives from `case modeL2` when the stage goes through: for
each family with a configured subnet the gateway of the resolved subnet, then
`DisableGatewayService` if neither family has a subnet. -/
theorem bridgedStage_ok_calls (k : Sink) (n : network) (ep : endpoint) (eid : String)
    (hok : (bridgedStage k n ep eid).out = .ok ()) :
    ∃ c4 c6, (bridgedStage k n ep eid).calls =
        c4 ++ c6 ++ (if n.config.Ipv4Subnets = [] ∧ n.config.Ipv6Subnets = []
          then [SinkCall.DisableGatewayService] else []) ∧
      ((n.config.Ipv4Subnets = [] ∧ c4 = []) ∨
        (n.config.Ipv4Subnets ≠ [] ∧
          ∃ s gw snet, getSubnetForIP ep.addr n.config.Ipv4Subnets = .ok (some s) ∧
            ParseCIDR s.GwIP = some (gw, snet) ∧ c4 = [SinkCall.SetGateway gw])) ∧
      ((n.config.Ipv6Subnets = [] ∧ c6 = []) ∨
        (n.config.Ipv6Subnets ≠ [] ∧
          ∃ s gw snet, getSubnetForIP ep.addrv6 n.config.Ipv6Subnets = .ok (some s) ∧
            ParseCIDR s.GwIP = some (gw, snet) ∧ c6 = [SinkCall.SetGatewayIPv6 gw])) := by
  unfold bridgedStage at hok ⊢
  have key : ∀ c4, (bridgedV4 k n ep eid []) = ⟨c4, .ok ()⟩ →
      (((⟨c4, .ok ()⟩ : Stage).next (bridgedV6 k n ep eid)).next (bridgedNoSubnets n)).out
        = .ok () →
      ∃ c6, (((⟨c4, .ok ()⟩ : Stage).next (bridgedV6 k n ep eid)).next
          (bridgedNoSubnets n)).calls =
          c4 ++ c6 ++ (if n.config.Ipv4Subnets = [] ∧ n.config.Ipv6Subnets = []
            then [SinkCall.DisableGatewayService] else []) ∧
        ((n.config.Ipv6Subnets = [] ∧ c6 = []) ∨
          (n.config.Ipv6Subnets ≠ [] ∧
            ∃ s gw snet, getSubnetForIP ep.addrv6 n.config.Ipv6Subnets = .ok (some s) ∧
              ParseCIDR s.GwIP = some (gw, snet) ∧ c6 = [SinkCall.SetGatewayIPv6 gw])) := by
    intro c4 _ hok6
    simp only [Stage.next] at hok6 ⊢
    rcases bridgedV6_cases k n ep eid c4 with ⟨h6, hb⟩ | ⟨h6, hb⟩
    · rw [hb]
      exact ⟨[], by simp [bridgedNoSubnets_eq], Or.inl ⟨h6, rfl⟩⟩
    · rcases hb with ⟨hf, hb⟩ | ⟨hf, hb⟩ | ⟨s, hf, hp, hb⟩ | ⟨s, gw, snet, e, hf, hp, hk, hb⟩ |
        ⟨s, gw, snet, hf, hp, hk, hb⟩
      · rw [hb] at hok6; simp at hok6
      · rw [hb] at hok6; simp at hok6
      · rw [hb] at hok6; simp at hok6
      · rw [hb] at hok6; simp at hok6
      · rw [hb]
        exact ⟨[SinkCall.SetGatewayIPv6 gw], by simp [bridgedNoSubnets_eq],
          Or.inr ⟨h6, s, gw, snet, hf, hp, rfl⟩⟩
  rcases bridgedV4_cases k n ep eid [] with ⟨h4, hb⟩ | ⟨h4, hb⟩
  · rw [hb] at hok ⊢
    obtain ⟨c6, hc, h6⟩ := key [] hb hok
    exact ⟨[], c6, hc, Or.inl ⟨h4, rfl⟩, h6⟩
  · rcases hb with ⟨hf, hb⟩ | ⟨hf, hb⟩ | ⟨s, hf, hp, hb⟩ | ⟨s, gw, snet, e, hf, hp, hk, hb⟩ |
      ⟨s, gw, snet, hf, hp, hk, hb⟩
    · rw [hb] at hok; simp [Stage.next] at hok
    · rw [hb] at hok; simp [Stage.next] at hok
    · rw [hb] at hok; simp [Stage.next] at hok
    · rw [hb] at hok; simp [Stage.next] at hok
    · rw [hb] at hok ⊢
      obtain ⟨c6, hc, h6⟩ := key _ hb hok
      exact ⟨[SinkCall.SetGateway gw], c6, by simpa using hc,
        Or.inr ⟨h4, s, gw, snet, hf, hp, rfl⟩, h6⟩

/-- C6: on a non-internal L2 network with a configured v4 subnet, when the
lookup of the endpoint's v4 address returns none, `Join` returns an error, which
is the v4 subnet-not-found error once the interface was created, and makes no
call on the sink (in particular no interface-naming and no `SetGateway` call).
Likewise for v6: when the lookup of the v6 address returns none, `Join` does not
succeed, it makes no interface-naming and no `SetGatewayIPv6` call, and it
returns the v6 subnet-not-found error once the interface was created and the
v4 stretch before it went through. -/
theorem Join_bridged_subnet_not_found (h : Host) (k : Sink) (d : driver) (nid eid : String)
    (n : network) (ep0 : endpoint)
    (hn : getNetwork d nid = .ok n) (he : n.endpoint eid = some ep0)
    (hint : n.config.Internal = false) (hmode : n.config.IpvlanMode = modeL2) :
    (n.config.Ipv4Subnets ≠ [] →
      getSubnetForIP ep0.addr n.config.Ipv4Subnets = .ok none →
        (∃ e, (Join h k d nid eid).out = .err e) ∧
        (∀ v, createLink h n = .ok v →
          (Join h k d nid eid).out = .err (.subnetNotFoundV4 eid)) ∧
        (Join h k d nid eid).calls = []) ∧
    (n.config.Ipv6Subnets ≠ [] →
      getSubnetForIP ep0.addrv6 n.config.Ipv6Subnets = .ok none →
        (Join h k d nid eid).out ≠ .ok () ∧
        (∀ v, createLink h n = .ok v →
          (n.config.Ipv4Subnets = [] ∨
            ∃ s gw snet, getSubnetForIP ep0.addr n.config.Ipv4Subnets = .ok (some s) ∧
              ParseCIDR s.GwIP = some (gw, snet) ∧
              k.respond [] (SinkCall.SetGateway gw) = none) →
          (Join h k d nid eid).out = .err (.subnetNotFoundV6 eid)) ∧
        (∀ c ∈ (Join h k d nid eid).calls,
          c.isNaming = false ∧ c.isSetGatewayIPv6 = false)) := by
  cases hc : createLink h n with
  | fault => exact absurd hc (createLink_ne_fault h n)
  | err e =>
    have hj := Join_of_createLink_err h k d nid eid n ep0 e hn he hc
    rw [hj]
    simp
  | ok v =>
    have hj := Join_of_created h k d nid eid n ep0 v hn he hc
    have hg : gatewayStage k (n.bindSrcName eid ep0 v) { ep0 with srcName := v } eid =
        bridgedStage k (n.bindSrcName eid ep0 v) { ep0 with srcName := v } eid :=
      gatewayStage_bridged k (n.bindSrcName eid ep0 v) _ eid hint hmode
    constructor
    · intro h0 hs
      have hb := bridgedStage_v4_not_found k (n.bindSrcName eid ep0 v)
        { ep0 with srcName := v } eid h0 hs
      have hne : (gatewayStage k (n.bindSrcName eid ep0 v) { ep0 with srcName := v } eid).out
          ≠ .ok () := by
        rw [hg, hb]
        simp
      rw [hj, joinBound_of_not_ok h k _ _ _ eid v hne, hg, hb]
      simp
    · intro h0 hs
      obtain ⟨hb1, hb2, hb3⟩ := bridgedStage_v6_not_found k (n.bindSrcName eid ep0 v)
        { ep0 with srcName := v } eid h0 hs
      have hne : (gatewayStage k (n.bindSrcName eid ep0 v) { ep0 with srcName := v } eid).out
          ≠ .ok () := by
        rw [hg]
        exact hb1
      rw [hj, joinBound_of_not_ok h k _ _ _ eid v hne, hg]
      refine ⟨hb1, ?_, ?_⟩
      · intro v1 _ hpass
        exact hb3 hpass
      · intro c hcm
        have hsg := hb2 c hcm
        cases c <;> simp [SinkCall.isSetGateway] at hsg
        simp [SinkCall.isNaming, SinkCall.isSetGatewayIPv6]

/-- Witness of C6: the endpoint `192.168.9.9/24` on the network whose only
subnet is `10.0.0.0/24`, and on the dual-stack network the endpoint whose v6
address `fd99::8/64` belongs to no configured subnet. -/
theorem Join_bridged_subnet_not_found_witness :
    ((Join okHost okSink bridgedDriver "net1" "ep1").out = .err (.subnetNotFoundV4 "ep1") ∧
      (Join okHost okSink bridgedDriver "net1" "ep1").calls = []) ∧
    ((Join okHost okSink dualStackDriver "net1" "ep2").out = .err (.subnetNotFoundV6 "ep2") ∧
      ∀ c ∈ (Join okHost okSink dualStackDriver "net1" "ep2").calls,
        c.isNaming = false ∧ c.isSetGatewayIPv6 = false) :=
  ⟨⟨((Join_bridged_subnet_not_found okHost okSink bridgedDriver "net1" "ep1" bridgedNetwork
        (mkEndpoint "ep1" (addrOf "192.168.9.9/24") none) (by decide) (by decide) (by decide)
        (by decide)).1 (by decide) (by decide)).2.1 "veth0a1b2c3" (by decide),
     ((Join_bridged_subnet_not_found okHost okSink bridgedDriver "net1" "ep1" bridgedNetwork
        (mkEndpoint "ep1" (addrOf "192.168.9.9/24") none) (by decide) (by decide) (by decide)
        (by decide)).1 (by decide) (by decide)).2.2⟩,
   ⟨((Join_bridged_subnet_not_found okHost okSink dualStackDriver "net1" "ep2"
        dualStackNetwork (mkEndpoint "ep2" (addrOf "10.0.1.8/24") (addrOf "fd99::8/64"))
        (by decide) (by decide) (by decide) (by decide)).2 (by decide) (by decide)).2.1
        "veth0a1b2c3" (by decide)
        (Or.inr ⟨⟨"10.0.1.0/24", "10.0.1.1/24"⟩,
          [0, 0, 0, 0, 0, 0, 0, 0, 0, 0, 0xff, 0xff, 10, 0, 1, 1],
          { IP := [10, 0, 1, 0], Mask := [255, 255, 255, 0] }, by decide, by decide, rfl⟩),
     ((Join_bridged_subnet_not_found okHost okSink dualStackDriver "net1" "ep2"
        dualStackNetwork (mkEndpoint "ep2" (addrOf "10.0.1.8/24") (addrOf "fd99::8/64"))
        (by decide) (by decide) (by decide) (by decide)).2 (by decide) (by decide)).2.2⟩⟩

/-- C7: on a non-internal L2 network, when `Join` succeeds, each address family
with a configured subnet gets exactly one gateway call (`SetGateway` for v4,
`SetGatewayIPv6` for v6) whose argument is the address parsed from the `GwIP`
of the subnet that `getSubnetForIP` resolves for the endpoint's address of that
family; a family without configured subnet gets no gateway call, and
`AddStaticRoute` is never called. -/
theorem Join_bridged_gateway_calls (h : Host) (k : Sink) (d : driver) (nid eid : String)
    (n : network) (ep0 : endpoint)
    (hn : getNetwork d nid = .ok n) (he : n.endpoint eid = some ep0)
    (hint : n.config.Internal = false) (hmode : n.config.IpvlanMode = modeL2)
    (hok : (Join h k d nid eid).out = .ok ()) :
    (n.config.Ipv4Subnets ≠ [] →
      ∃ s gw snet, getSubnetForIP ep0.addr n.config.Ipv4Subnets = .ok (some s) ∧
        ParseCIDR s.GwIP = some (gw, snet) ∧
        (Join h k d nid eid).calls.filter SinkCall.isSetGateway = [SinkCall.SetGateway gw]) ∧
    (n.config.Ipv4Subnets = [] →
      (Join h k d nid eid).calls.filter SinkCall.isSetGateway = []) ∧
    (n.config.Ipv6Subnets ≠ [] →
      ∃ s gw snet, getSubnetForIP ep0.addrv6 n.config.Ipv6Subnets = .ok (some s) ∧
        ParseCIDR s.GwIP = some (gw, snet) ∧
        (Join h k d nid eid).calls.filter SinkCall.isSetGatewayIPv6 =
          [SinkCall.SetGatewayIPv6 gw]) ∧
    (n.config.Ipv6Subnets = [] →
      (Join h k d nid eid).calls.filter SinkCall.isSetGatewayIPv6 = []) ∧
    (∀ c ∈ (Join h k d nid eid).calls, c.isAddStaticRoute = false) := by
  cases hc : createLink h n with
  | fault => exact absurd hc (createLink_ne_fault h n)
  | err e =>
    rw [Join_of_createLink_err h k d nid eid n ep0 e hn he hc] at hok
    simp at hok
  | ok v =>
    have hj := Join_of_created h k d nid eid n ep0 v hn he hc
    have hg : gatewayStage k (n.bindSrcName eid ep0 v) { ep0 with srcName := v } eid =
        bridgedStage k (n.bindSrcName eid ep0 v) { ep0 with srcName := v } eid :=
      gatewayStage_bridged k (n.bindSrcName eid ep0 v) _ eid hint hmode
    rw [hj] at hok
    have hgok := joinBound_ok_gateway h k _ _ _ eid v hok
    have hcalls := joinBound_calls_of_ok h k
      (d.withNetwork nid (n.bindSrcName eid ep0 v)) _ _ eid v hgok
    rw [hg] at hgok hcalls
    obtain ⟨c4, c6, hb, h4, h6⟩ := bridgedStage_ok_calls k _ _ eid hgok
    rw [hb] at hcalls
    rw [hj, hcalls]
    simp only [bindSrcName_config] at h4 h6 ⊢
    rcases h4 with ⟨h40, hc4⟩ | ⟨h40, s4, gw4, snet4, hs4, hp4, hc4⟩ <;>
    rcases h6 with ⟨h60, hc6⟩ | ⟨h60, s6, gw6, snet6, hs6, hp6, hc6⟩ <;>
    subst hc4 <;> subst hc6
    · simp [h40, h60, SinkCall.isSetGateway, SinkCall.isSetGatewayIPv6,
        SinkCall.isAddStaticRoute]
    · refine ⟨fun hx => absurd h40 hx, ?_, fun _ => ⟨s6, gw6, snet6, hs6, hp6, ?_⟩,
        fun hx => absurd hx h60, ?_⟩ <;>
      simp [h40, h60, SinkCall.isSetGateway, SinkCall.isSetGatewayIPv6,
        SinkCall.isAddStaticRoute]
    · refine ⟨fun _ => ⟨s4, gw4, snet4, hs4, hp4, ?_⟩, fun hx => absurd hx h40,
        fun hx => absurd h60 hx, ?_, ?_⟩ <;>
      simp [h40, h60, SinkCall.isSetGateway, SinkCall.isSetGatewayIPv6,
        SinkCall.isAddStaticRoute]
    · refine ⟨fun _ => ⟨s4, gw4, snet4, hs4, hp4, ?_⟩, fun hx => absurd hx h40,
        fun _ => ⟨s6, gw6, snet6, hs6, hp6, ?_⟩, fun hx => absurd hx h60, ?_⟩ <;>
      simp [h40, h60, SinkCall.isSetGateway, SinkCall.isSetGatewayIPv6,
        SinkCall.isAddStaticRoute]

/-- Witness of C7: on the dual-stack network the endpoint `10.0.1.7/24`,
`fd00::7/64` gets the gateway of the second v4 subnet, the one that holds its
address, and the gateway of the v6 subnet. -/
theorem Join_bridged_gateway_calls_witness :
    (Join okHost okSink dualStackDriver "net1" "ep1").out = .ok () ∧
    (Join okHost okSink dualStackDriver "net1" "ep1").calls.filter SinkCall.isSetGateway =
      [SinkCall.SetGateway [0, 0, 0, 0, 0, 0, 0, 0, 0, 0, 0xff, 0xff, 10, 0, 1, 1]] ∧
    (∀ c ∈ (Join okHost okSink dualStackDriver "net1" "ep1").calls,
      c.isAddStaticRoute = false) :=
  ⟨by decide, by decide,
   (Join_bridged_gateway_calls okHost okSink dualStackDriver "net1" "ep1" dualStackNetwork
     (mkEndpoint "ep1" (addrOf "10.0.1.7/24") (addrOf "fd00::7/64"))
     (by decide) (by decide) (by decide) (by decide) (by decide)).2.2.2.2⟩

/-! ## `Join`: what an error leaves behind -/

theorem Stage.next_err (s : Stage) (f : List SinkCall → Stage) (e : JoinError)
    (h : (s.next f).out = .err e) : s.out = .err e ∨ ∃ c, (f c).out = .err e := by
  unfold Stage.next at h
  cases hs : s.out with
  | ok u =>
    rw [hs] at h
    exact Or.inr ⟨s.calls, h⟩
  | err e1 =>
    rw [hs] at h
    simp only at h
    rw [hs] at h
    exact Or.inl h
  | fault =>
    rw [hs] at h
    simp only at h
    rw [hs] at h
    simp at h

theorem routedV4_err (k : Sink) (ep : endpoint) (calls : List SinkCall) (e : JoinError)
    (h : (routedV4 k ep calls).out = .err e) : e.beforeBinding = false := by
  rw [routedV4_eq] at h
  cases ha : ep.addr with
  | none => simp [ha] at h
  | some a =>
    simp only [ha] at h
    cases hk : k.respond calls v4DefaultRouteCall with
    | none => rw [hk] at h; simp at h
    | some e1 =>
      rw [hk] at h
      simp only [Res.err.injEq] at h
      subst h
      rfl

theorem routedV6_err (k : Sink) (ep : endpoint) (calls : List SinkCall) (e : JoinError)
    (h : (routedV6 k ep calls).out = .err e) : e.beforeBinding = false := by
  rw [routedV6_eq] at h
  cases ha : ep.addrv6 with
  | none => simp [ha] at h
  | some a =>
    simp only [ha] at h
    cases hk : k.respond calls v6DefaultRouteCall with
    | none => rw [hk] at h; simp at h
    | some e1 =>
      rw [hk] at h
      simp only [Res.err.injEq] at h
      subst h
      rfl

theorem bridgedV4_err (k : Sink) (n : network) (ep : endpoint) (eid : String)
    (calls : List SinkCall) (e : JoinError)
    (h : (bridgedV4 k n ep eid calls).out = .err e) : e.beforeBinding = false := by
  rcases bridgedV4_cases k n ep eid calls with ⟨_, hb⟩ | ⟨_, hb⟩
  · rw [hb] at h; simp at h
  · rcases hb with ⟨_, hb⟩ | ⟨_, hb⟩ | ⟨s, _, _, hb⟩ | ⟨s, gw, snet, e1, _, _, _, hb⟩ |
      ⟨s, gw, snet, _, _, _, hb⟩ <;> rw [hb] at h <;> simp at h <;> subst h <;> rfl

theorem bridgedV6_err (k : Sink) (n : network) (ep : endpoint) (eid : String)
    (calls : List SinkCall) (e : JoinError)
    (h : (bridgedV6 k n ep eid calls).out = .err e) : e.beforeBinding = false := by
  rcases bridgedV6_cases k n ep eid calls with ⟨_, hb⟩ | ⟨_, hb⟩
  · rw [hb] at h; simp at h
  · rcases hb with ⟨_, hb⟩ | ⟨_, hb⟩ | ⟨s, _, _, hb⟩ | ⟨s, gw, snet, e1, _, _, _, hb⟩ |
      ⟨s, gw, snet, _, _, _, hb⟩ <;> rw [hb] at h <;> simp at h <;> subst h <;> rfl

/-- The errors of the gateway stage are none of those returned before the
name is bound. -/
theorem gatewayStage_err (k : Sink) (n : network) (ep : endpoint) (eid : String)
    (e : JoinError) (h : (gatewayStage k n ep eid).out = .err e) :
    e.beforeBinding = false := by
  unfold gatewayStage at h
  split at h
  · split at h
    · unfold routedStage at h
      rcases Stage.next_err _ _ e h with h1 | ⟨c, h1⟩
      · exact routedV4_err k ep _ e h1
      · exact routedV6_err k ep c e h1
    · split at h
      · unfold bridgedStage at h
        rcases Stage.next_err _ _ e h with h1 | ⟨c, h1⟩
        · rcases Stage.next_err _ _ e h1 with h2 | ⟨c, h2⟩
          · exact bridgedV4_err k n ep eid _ e h2
          · exact bridgedV6_err k n ep eid c e h2
        · rw [bridgedNoSubnets_eq] at h1
          simp at h1
      · simp at h
  · unfold internalStage at h
    split at h
    · simp at h
    · split at h <;> simp at h

theorem joinBound_err (h : Host) (k : Sink) (d : driver) (n : network) (ep : endpoint)
    (eid v : String) (e : JoinError) (he : (joinBound h k d n ep eid v).out = .err e) :
    e.beforeBinding = false := by
  by_cases hok : (gatewayStage k n ep eid).out = .ok ()
  · unfold joinBound at he
    simp only [hok] at he
    exact finishJoin_err_not_before h k d ep v _ e he
  · rw [joinBound_of_not_ok h k d n ep eid v hok] at he
    exact gatewayStage_err k n ep eid e he

theorem srcName_after_bind (d : driver) (nid eid : String) (n : network) (ep0 : endpoint)
    (v : String) (hn : getNetwork d nid = .ok n) (he : n.endpoint eid = some ep0) :
    (d.withNetwork nid (n.bindSrcName eid ep0 v)).srcName nid eid = some v := by
  have h1 : (setEntry nid (n.bindSrcName eid ep0 v) d.networks).lookup nid =
      some (n.bindSrcName eid ep0 v) :=
    lookup_setEntry nid _ n d.networks ((getNetwork_ok_iff d nid n).mp hn)
  have h2 := bindSrcName_endpoint n eid ep0 v he
  unfold network.endpoint at h2
  unfold driver.srcName driver.withNetwork
  simp only [h1, h2, Option.map_some']

/-- C8, as the code has it: a `Join` that returns an error before the interface
is created (unknown network or endpoint, name generation or link creation
failing) leaves the driver, hence the endpoint's `srcName`, as it was; a `Join`
that returns an error at any later step has created one interface and leaves
its name bound on the endpoint: nothing is rolled back. -/
theorem Join_error_srcName (h : Host) (k : Sink) (d : driver) (nid eid : String)
    (e : JoinError) (herr : (Join h k d nid eid).out = .err e) :
    (e.beforeBinding = true ∧ (Join h k d nid eid).links = [] ∧
      (Join h k d nid eid).d = d ∧
      (Join h k d nid eid).d.srcName nid eid = d.srcName nid eid) ∨
    (e.beforeBinding = false ∧
      ∃ v, (Join h k d nid eid).links = [v] ∧
        (Join h k d nid eid).d.srcName nid eid = some v) := by
  rcases Join_cases h k d nid eid with ⟨e1, hb, hj⟩ | ⟨n, ep0, v, hn, he, hc, hj⟩
  · left
    rw [hj] at herr ⊢
    simp only [Res.err.injEq] at herr
    subst herr
    exact ⟨hb, rfl, rfl, rfl⟩
  · right
    rw [hj] at herr ⊢
    refine ⟨joinBound_err h k _ _ _ eid v e herr, v, joinBound_links h k _ _ _ eid v, ?_⟩
    rw [joinBound_d]
    exact srcName_after_bind d nid eid n ep0 v hn he

/-- Witness of C8 as amended: the join that fails on the missing subnet leaves
the created interface's name on the endpoint. -/
theorem Join_error_srcName_witness :
    (Join okHost okSink bridgedDriver "net1" "ep1").out = .err (.subnetNotFoundV4 "ep1") ∧
    ((JoinError.subnetNotFoundV4 "ep1").beforeBinding = false ∧
      ∃ v, (Join okHost okSink bridgedDriver "net1" "ep1").links = [v] ∧
        (Join okHost okSink bridgedDriver "net1" "ep1").d.srcName "net1" "ep1" = some v) :=
  ⟨by decide,
   (Join_error_srcName okHost okSink bridgedDriver "net1" "ep1" (.subnetNotFoundV4 "ep1")
     (by decide)).resolve_left (by decide)⟩

/-- C8 fails as stated: the join of the endpoint `192.168.9.9/24` on the network
whose only subnet is `10.0.0.0/24` returns the subnet-not-found error, and the
endpoint's `srcName`, empty before the call, is the name of the created
interface after it. -/
theorem Join_error_keeps_bound_name :
    (Join okHost okSink bridgedDriver "net1" "ep1").out = .err (.subnetNotFoundV4 "ep1") ∧
    bridgedDriver.srcName "net1" "ep1" = some "" ∧
    (Join okHost okSink bridgedDriver "net1" "ep1").d.srcName "net1" "ep1" =
      some "veth0a1b2c3" ∧
    (Join okHost okSink bridgedDriver "net1" "ep1").d.srcName "net1" "ep1" ≠
      bridgedDriver.srcName "net1" "ep1" := by
  decide

/-! ## `Join` on an internal network -/

/-- On an internal network whose endpoint holds an address of every family
that has a configured subnet, the gateway stage is the single call
`DisableGatewayService`. -/
theorem internalStage_of_addresses (n : network) (ep : endpoint)
    (h4 : n.config.Ipv4Subnets ≠ [] → ep.addr ≠ none)
    (h6 : n.config.Ipv6Subnets ≠ [] → ep.addrv6 ≠ none) :
    internalStage n ep = ⟨[SinkCall.DisableGatewayService], .ok ()⟩ := by
  unfold internalStage
  have e4 : ¬ (n.config.Ipv4Subnets.length > 0 ∧ ep.addr = none) :=
    fun hx => h4 (List.length_pos.mp hx.1) hx.2
  have e6 : ¬ (n.config.Ipv6Subnets.length > 0 ∧ ep.addrv6 = none) :=
    fun hx => h6 (List.length_pos.mp hx.1) hx.2
  rw [if_neg e4, if_neg e6]

/-- On an internal network, in any mode and with any subnets, a `Join` that
gets past interface creation for an endpoint holding an address of every
family with a configured subnet calls `DisableGatewayService` once and makes no
other gateway or route call. -/
theorem Join_internal_calls (h : Host) (k : Sink) (d : driver) (nid eid : String)
    (n : network) (ep0 : endpoint) (v : String)
    (hn : getNetwork d nid = .ok n) (he : n.endpoint eid = some ep0)
    (hc : createLink h n = .ok v) (hint : n.config.Internal = true)
    (h4 : n.config.Ipv4Subnets ≠ [] → ep0.addr ≠ none)
    (h6 : n.config.Ipv6Subnets ≠ [] → ep0.addrv6 ≠ none) :
    (Join h k d nid eid).calls =
      [SinkCall.DisableGatewayService, SinkCall.InterfaceName,
        SinkCall.SetNames v containerVethPrefix h.GetIfname] := by
  have hg : gatewayStage k (n.bindSrcName eid ep0 v) { ep0 with srcName := v } eid =
      ⟨[SinkCall.DisableGatewayService], .ok ()⟩ := by
    unfold gatewayStage
    rw [bindSrcName_config, hint]
    exact internalStage_of_addresses (n.bindSrcName eid ep0 v) _ h4 h6
  rw [Join_of_created h k d nid eid n ep0 v hn he hc,
    joinBound_calls_of_ok h k _ _ _ eid v (by rw [hg]), hg]
  rfl

/-- C9 at the failing input: on the internal dual-stack network, the join of
the endpoint that has no v6 address faults after the interface was created and
before any call on the sink, so `DisableGatewayService` is not called; the
endpoint that has both addresses gets the single call. -/
theorem Join_internal_missing_address_faults :
    (Join okHost okSink internalDriver "net1" "ep1").out = .fault ∧
    (Join okHost okSink internalDriver "net1" "ep1").links = ["veth0a1b2c3"] ∧
    (Join okHost okSink internalDriver "net1" "ep1").calls = [] ∧
    (Join okHost okSink internalDriver "net1" "ep1").calls.count
      SinkCall.DisableGatewayService = 0 ∧
    (Join okHost okSink internalDriver "net1" "ep2").calls.count
      SinkCall.DisableGatewayService = 1 := by
  decide

/-! ## Unknown network or endpoint -/

/-- C10: when the network id is unknown to the driver or the endpoint id is
unknown to the network, `Join` and `Leave` each return a not-found error, and
`Join` creates no interface, makes no call on the sink, writes nothing to the
store and leaves the driver, with every endpoint, unchanged. -/
theorem Join_Leave_not_found (h : Host) (k : Sink) (d : driver) (nid eid : String)
    (hmiss : d.networks.lookup nid = none ∨
      ∃ n, d.networks.lookup nid = some n ∧ n.endpoints.lookup eid = none) :
    (∃ e, (Join h k d nid eid).out = .err e ∧ e.isNotFound = true) ∧
    (Join h k d nid eid).links = [] ∧
    (Join h k d nid eid).calls = [] ∧
    (Join h k d nid eid).stored = [] ∧
    (Join h k d nid eid).d = d ∧
    (∃ e, (Leave d nid eid).out = .err e ∧ e.isNotFound = true) ∧
    (Leave d nid eid).d = d := by
  rcases hmiss with hn | ⟨n, hn, he⟩
  · simp [Join, Leave, getNetwork, hn, JoinError.isNotFound]
  · by_cases h0 : eid = ""
    · subst h0
      simp [Join, Leave, getNetwork, network.endpoint, network.getEndpoint, hn, he,
        JoinError.isNotFound]
    · simp [Join, Leave, getNetwork, network.endpoint, network.getEndpoint, hn, he, h0,
        JoinError.isNotFound]

/-- Witness of C10: an unknown network, and an unknown endpoint of a known
network. -/
theorem Join_Leave_not_found_witness :
    ((Join okHost okSink bridgedDriver "net7" "ep1").out = .err (.networkNotFound "net7") ∧
      (Leave bridgedDriver "net7" "ep1").out = .err (.networkNotFound "net7")) ∧
    ((Join okHost okSink bridgedDriver "net1" "ep7").out = .err (.endpointNotFound "ep7") ∧
      (Join okHost okSink bridgedDriver "net1" "ep7").d = bridgedDriver ∧
      (Leave bridgedDriver "net1" "ep7").out = .err (.endpointNotFound "ep7")) :=
  ⟨⟨by decide, by decide⟩, by decide,
   (Join_Leave_not_found okHost okSink bridgedDriver "net1" "ep7"
     (Or.inr ⟨bridgedNetwork, by decide, by decide⟩)).2.2.2.2.1, by decide⟩

/-! ## `Leave` -/

theorem Leave_d (d : driver) (nid eid : String) : (Leave d nid eid).d = d := by
  unfold Leave
  cases getNetwork d nid with
  | err e => rfl
  | fault => rfl
  | ok n =>
    simp only
    cases n.getEndpoint eid with
    | err e => rfl
    | fault => rfl
    | ok r => cases r <;> rfl

theorem Leave_of_known (d : driver) (nid eid : String) (n : network) (ep : endpoint)
    (hn : d.networks.lookup nid = some n) (he : n.endpoints.lookup eid = some ep)
    (hid : eid ≠ "") : (Leave d nid eid).out = .ok () := by
  unfold Leave getNetwork network.getEndpoint
  simp only [hn, he, hid, if_false]

/-- After a `Join` that returned without error the created interface's name is
bound on the endpoint. -/
theorem Join_ok_bound (h : Host) (k : Sink) (d : driver) (nid eid : String)
    (hok : (Join h k d nid eid).out = .ok ()) :
    ∃ n ep0 v, getNetwork d nid = .ok n ∧ n.endpoint eid = some ep0 ∧
      createLink h n = .ok v ∧
      Join h k d nid eid =
        joinBound h k (d.withNetwork nid (n.bindSrcName eid ep0 v))
          (n.bindSrcName eid ep0 v) { ep0 with srcName := v } eid v ∧
      (Join h k d nid eid).links = [v] ∧
      (Join h k d nid eid).d = d.withNetwork nid (n.bindSrcName eid ep0 v) ∧
      (Join h k d nid eid).d.srcName nid eid = some v := by
  rcases Join_cases h k d nid eid with ⟨e1, _, hj⟩ | ⟨n, ep0, v, hn, he, hc, hj⟩
  · rw [hj] at hok
    simp at hok
  · refine ⟨n, ep0, v, hn, he, hc, hj, ?_, ?_, ?_⟩
    · rw [hj, joinBound_links]
    · rw [hj, joinBound_d]
    · rw [hj, joinBound_d]
      exact srcName_after_bind d nid eid n ep0 v hn he

/-- C11, as the code has it: for a known network and an endpoint of it (with a
non-empty id), `Leave` returns success and changes nothing, whatever interface
name is bound on the endpoint, also when the endpoint was never joined and its
name is empty. -/
theorem Leave_known_endpoint_succeeds (d : driver) (nid eid : String) (n : network)
    (ep : endpoint) (hn : d.networks.lookup nid = some n)
    (he : n.endpoints.lookup eid = some ep) (hid : eid ≠ "") :
    (Leave d nid eid).out = .ok () ∧ (Leave d nid eid).d = d :=
  ⟨Leave_of_known d nid eid n ep hn he hid, Leave_d d nid eid⟩

/-- Witness of C11 as amended: the endpoint `ep1` of the bridged network, never
joined. -/
theorem Leave_known_endpoint_succeeds_witness :
    bridgedDriver.srcName "net1" "ep1" = some "" ∧
    ((Leave bridgedDriver "net1" "ep1").out = .ok () ∧
      (Leave bridgedDriver "net1" "ep1").d = bridgedDriver) :=
  ⟨by decide,
   Leave_known_endpoint_succeeds bridgedDriver "net1" "ep1" bridgedNetwork
     (mkEndpoint "ep1" (addrOf "192.168.9.9/24") none) (by decide) (by decide) (by decide)⟩

/-- C11 fails as stated: on the bridged network the endpoint `ep1` has never
been joined (its bound name is empty), and `Leave` returns success, not a
not-found error. -/
theorem Leave_never_joined_returns_success :
    (getNetwork bridgedDriver "net1") = .ok bridgedNetwork ∧
    bridgedDriver.srcName "net1" "ep1" = some "" ∧
    (Leave bridgedDriver "net1" "ep1").out = .ok () ∧
    ¬ ∃ e, (Leave bridgedDriver "net1" "ep1").out = .err e ∧ e.isNotFound = true := by
  refine ⟨by decide, by decide, by decide, ?_⟩
  rintro ⟨e, h1, _⟩
  have h2 : (Leave bridgedDriver "net1" "ep1").out = .ok () := by decide
  rw [h2] at h1
  simp at h1

/-- C12, as the code has it: after a `Join` that succeeded, `Leave` leaves the
driver as `Join` left it, so the endpoint's bound interface name is still the
name of the interface `Join` created; `Leave` itself returns success (for a
non-empty endpoint id). -/
theorem Leave_after_Join_keeps_srcName (h : Host) (k : Sink) (d : driver) (nid eid : String)
    (hok : (Join h k d nid eid).out = .ok ()) :
    (Leave (Join h k d nid eid).d nid eid).d = (Join h k d nid eid).d ∧
    (∃ v, (Join h k d nid eid).links = [v] ∧
      (Leave (Join h k d nid eid).d nid eid).d.srcName nid eid = some v) ∧
    (eid ≠ "" → (Leave (Join h k d nid eid).d nid eid).out = .ok ()) := by
  obtain ⟨n, ep0, v, hn, he, hc, hj, hl, hd, hs⟩ := Join_ok_bound h k d nid eid hok
  refine ⟨Leave_d _ nid eid, ⟨v, hl, ?_⟩, ?_⟩
  · rw [Leave_d]
    exact hs
  · intro hid
    rw [hd]
    have h1 : (setEntry nid (n.bindSrcName eid ep0 v) d.networks).lookup nid =
        some (n.bindSrcName eid ep0 v) :=
      lookup_setEntry nid _ n d.networks ((getNetwork_ok_iff d nid n).mp hn)
    exact Leave_of_known _ nid eid (n.bindSrcName eid ep0 v) { ep0 with srcName := v } h1
      (bindSrcName_endpoint n eid ep0 v he) hid

/-- Witness of C12 as amended: join, then leave, of the endpoint `10.0.0.7/24`
on the bridged network. -/
theorem Leave_after_Join_keeps_srcName_witness :
    (Join okHost okSink bridgedDriver "net1" "ep2").out = .ok () ∧
    (Leave (Join okHost okSink bridgedDriver "net1" "ep2").d "net1" "ep2").d =
      (Join okHost okSink bridgedDriver "net1" "ep2").d :=
  ⟨by decide,
   (Leave_after_Join_keeps_srcName okHost okSink bridgedDriver "net1" "ep2" (by decide)).1⟩

/-- C12 fails as stated: the endpoint `10.0.0.7/24` is joined with success, the
following `Leave` returns success, and the endpoint's bound name after `Leave`
is the created interface's name, not the empty name. -/
theorem Leave_does_not_clear_srcName :
    (Join okHost okSink bridgedDriver "net1" "ep2").out = .ok () ∧
    (Leave (Join okHost okSink bridgedDriver "net1" "ep2").d "net1" "ep2").out = .ok () ∧
    (Leave (Join okHost okSink bridgedDriver "net1" "ep2").d "net1" "ep2").d.srcName
      "net1" "ep2" = some "veth0a1b2c3" ∧
    (Leave (Join okHost okSink bridgedDriver "net1" "ep2").d "net1" "ep2").d.srcName
      "net1" "ep2" ≠ some "" := by
  decide

/-! ## `Join`: the calls of the gateway stage and the naming of the interface -/

theorem Stage.next_of_ok (s : Stage) (f : List SinkCall → Stage) (h : s.out = .ok ()) :
    s.next f = f s.calls := by
  unfold Stage.next
  rw [h]

theorem Stage.next_of_not_ok (s : Stage) (f : List SinkCall → Stage) (h : s.out ≠ .ok ()) :
    s.next f = s := by
  unfold Stage.next
  cases hs : s.out with
  | ok u => exact absurd hs h
  | err e => rfl
  | fault => rfl

theorem bridgedV4_calls (k : Sink) (n : network) (ep : endpoint) (eid : String)
    (calls : List SinkCall) :
    ∃ c4, (bridgedV4 k n ep eid calls).calls = calls ++ c4 ∧
      (c4 = [] ∨ (n.config.Ipv4Subnets ≠ [] ∧ ∃ gw, c4 = [SinkCall.SetGateway gw])) := by
  rcases bridgedV4_cases k n ep eid calls with ⟨_, hb⟩ | ⟨h0, hb⟩
  · exact ⟨[], by rw [hb]; simp, Or.inl rfl⟩
  · rcases hb with ⟨_, hb⟩ | ⟨_, hb⟩ | ⟨s, _, _, hb⟩ | ⟨s, gw, snet, e1, _, _, _, hb⟩ |
      ⟨s, gw, snet, _, _, _, hb⟩
    · exact ⟨[], by rw [hb]; simp, Or.inl rfl⟩
    · exact ⟨[], by rw [hb]; simp, Or.inl rfl⟩
    · exact ⟨[], by rw [hb]; simp, Or.inl rfl⟩
    · exact ⟨[SinkCall.SetGateway gw], by rw [hb], Or.inr ⟨h0, gw, rfl⟩⟩
    · exact ⟨[SinkCall.SetGateway gw], by rw [hb], Or.inr ⟨h0, gw, rfl⟩⟩

theorem bridgedV6_calls (k : Sink) (n : network) (ep : endpoint) (eid : String)
    (calls : List SinkCall) :
    ∃ c6, (bridgedV6 k n ep eid calls).calls = calls ++ c6 ∧
      (c6 = [] ∨ (n.config.Ipv6Subnets ≠ [] ∧ ∃ gw, c6 = [SinkCall.SetGatewayIPv6 gw])) := by
  rcases bridgedV6_cases k n ep eid calls with ⟨_, hb⟩ | ⟨h0, hb⟩
  · exact ⟨[], by rw [hb]; simp, Or.inl rfl⟩
  · rcases hb with ⟨_, hb⟩ | ⟨_, hb⟩ | ⟨s, _, _, hb⟩ | ⟨s, gw, snet, e1, _, _, _, hb⟩ |
      ⟨s, gw, snet, _, _, _, hb⟩
    · exact ⟨[], by rw [hb]; simp, Or.inl rfl⟩
    · exact ⟨[], by rw [hb]; simp, Or.inl rfl⟩
    · exact ⟨[], by rw [hb]; simp, Or.inl rfl⟩
    · exact ⟨[SinkCall.SetGatewayIPv6 gw], by rw [hb], Or.inr ⟨h0, gw, rfl⟩⟩
    · exact ⟨[SinkCall.SetGatewayIPv6 gw], by rw [hb], Or.inr ⟨h0, gw, rfl⟩⟩

/-- The calls of `case modeL2`, however the stage ends: at most one `SetGateway`
(only with a v4 subnet), at most one `SetGatewayIPv6` (only with a v6 subnet),
and `DisableGatewayService` only when neither family has a subnet. -/
theorem bridgedStage_calls (k : Sink) (n : network) (ep : endpoint) (eid : String) :
    ∃ c4 c6 c0, (bridgedStage k n ep eid).calls = c4 ++ c6 ++ c0 ∧
      (c4 = [] ∨ (n.config.Ipv4Subnets ≠ [] ∧ ∃ gw, c4 = [SinkCall.SetGateway gw])) ∧
      (c6 = [] ∨ (n.config.Ipv6Subnets ≠ [] ∧ ∃ gw, c6 = [SinkCall.SetGatewayIPv6 gw])) ∧
      (c0 = [] ∨ (n.config.Ipv4Subnets = [] ∧ n.config.Ipv6Subnets = [] ∧
        c0 = [SinkCall.DisableGatewayService])) := by
  obtain ⟨c4, h4, h4s⟩ := bridgedV4_calls k n ep eid []
  rw [List.nil_append] at h4
  unfold bridgedStage
  by_cases ho4 : (bridgedV4 k n ep eid []).out = .ok ()
  · rw [Stage.next_of_ok _ _ ho4, h4]
    obtain ⟨c6, h6, h6s⟩ := bridgedV6_calls k n ep eid c4
    by_cases ho6 : (bridgedV6 k n ep eid c4).out = .ok ()
    · rw [Stage.next_of_ok _ _ ho6, h6, bridgedNoSubnets_eq]
      refine ⟨c4, c6, _, rfl, h4s, h6s, ?_⟩
      by_cases hb : n.config.Ipv4Subnets = [] ∧ n.config.Ipv6Subnets = []
      · rw [if_pos hb]
        exact Or.inr ⟨hb.1, hb.2, rfl⟩
      · rw [if_neg hb]
        exact Or.inl rfl
    · rw [Stage.next_of_not_ok _ _ ho6, h6]
      exact ⟨c4, c6, [], by simp, h4s, h6s, Or.inl rfl⟩
  · rw [Stage.next_of_not_ok _ _ ho4, Stage.next_of_not_ok _ _ ho4, h4]
    exact ⟨c4, [], [], by simp, h4s, Or.inl rfl, Or.inl rfl⟩

theorem bridgedStage_no_subnets (k : Sink) (n : network) (ep : endpoint) (eid : String)
    (h4 : n.config.Ipv4Subnets = []) (h6 : n.config.Ipv6Subnets = []) :
    bridgedStage k n ep eid = ⟨[SinkCall.DisableGatewayService], .ok ()⟩ := by
  unfold bridgedStage bridgedV4 bridgedV6
  simp [h4, h6, Stage.next, bridgedNoSubnets_eq]

/-- No call of the gateway stage is an interface-naming call. -/
theorem gatewayStage_not_naming (k : Sink) (n : network) (ep : endpoint) (eid : String) :
    ∀ c ∈ (gatewayStage k n ep eid).calls, c.isNaming = false := by
  intro c hc
  unfold gatewayStage at hc
  split at hc
  · split at hc
    · obtain ⟨hs, _, _⟩ := routedStage_calls k ep
      have hall : (routedStage k ep).calls.all (fun c => !c.isNaming) = true := by
        rcases hs with hs | hs | hs | hs <;> rw [hs] <;> rfl
      have hcn := List.all_eq_true.mp hall c hc
      simpa using hcn
    · split at hc
      · obtain ⟨c4, c6, c0, hs, h4, h6, h0⟩ := bridgedStage_calls k n ep eid
        rw [hs] at hc
        simp only [List.mem_append] at hc
        rcases hc with (hc | hc) | hc
        · rcases h4 with h4 | ⟨_, gw, h4⟩ <;> rw [h4] at hc <;> simp at hc
          subst hc
          rfl
        · rcases h6 with h6 | ⟨_, gw, h6⟩ <;> rw [h6] at hc <;> simp at hc
          subst hc
          rfl
        · rcases h0 with h0 | ⟨_, _, h0⟩ <;> rw [h0] at hc <;> simp at hc
          subst hc
          rfl
      · simp at hc
  · unfold internalStage at hc
    split at hc
    · simp at hc
    · split at hc
      · simp at hc
      · simp at hc
        subst hc
        rfl

/-- The calls of a `Join` that got past interface creation: those of the
gateway stage, followed by the two naming calls when the stage went through. -/
theorem joinBound_calls (h : Host) (k : Sink) (d : driver) (n : network) (ep : endpoint)
    (eid v : String) :
    (joinBound h k d n ep eid v).calls = (gatewayStage k n ep eid).calls ∨
    (joinBound h k d n ep eid v).calls =
      (gatewayStage k n ep eid).calls ++
        [.InterfaceName, .SetNames v containerVethPrefix h.GetIfname] := by
  by_cases hok : (gatewayStage k n ep eid).out = .ok ()
  · exact Or.inr (joinBound_calls_of_ok h k d n ep eid v hok)
  · left
    rw [joinBound_of_not_ok h k d n ep eid v hok]

/-- A created link is the result of `createIPVlan` on the generated name and
the parent, mode and flag of the network. -/
theorem createLink_ok (h : Host) (n : network) (v : String) (hc : createLink h n = .ok v) :
    ∃ containerIfName, h.GenerateIfaceName = .ok containerIfName ∧
      h.createIPVlan containerIfName n.config.Parent n.config.IpvlanMode
        n.config.IpvlanFlag = .ok v := by
  unfold createLink at hc
  cases hg : h.GenerateIfaceName with
  | error e =>
    rw [hg] at hc
    simp at hc
  | ok c =>
    rw [hg] at hc
    simp only at hc
    cases hv : h.createIPVlan c n.config.Parent n.config.IpvlanMode n.config.IpvlanFlag with
    | error e =>
      rw [hv] at hc
      simp at hc
    | ok v1 =>
      rw [hv] at hc
      simp only [Res.ok.injEq] at hc
      subst hc
      exact ⟨c, rfl, hv⟩

/-- C13: a `Join` that returns success has created one interface, and its calls
are gateway and route calls followed by `InterfaceName` and one `SetNames`,
whose source name is the name `createIPVlan` returned for the generated name
(and the parent, mode and flag of the network), which is also the name bound on
the endpoint when `Join` returns, and whose prefix is the constant
`containerVethPrefix`, whatever the network, mode and endpoint. -/
theorem Join_ok_sets_names_once (h : Host) (k : Sink) (d : driver) (nid eid : String)
    (hok : (Join h k d nid eid).out = .ok ()) :
    ∃ n containerIfName v g, getNetwork d nid = .ok n ∧
      h.GenerateIfaceName = .ok containerIfName ∧
      h.createIPVlan containerIfName n.config.Parent n.config.IpvlanMode
        n.config.IpvlanFlag = .ok v ∧
      createLink h n = .ok v ∧
      (Join h k d nid eid).links = [v] ∧
      (Join h k d nid eid).calls =
        g ++ [SinkCall.InterfaceName, SinkCall.SetNames v containerVethPrefix h.GetIfname] ∧
      (∀ c ∈ g, c.isNaming = false) ∧
      (Join h k d nid eid).calls.filter SinkCall.isSetNames =
        [SinkCall.SetNames v containerVethPrefix h.GetIfname] ∧
      (Join h k d nid eid).d.srcName nid eid = some v := by
  obtain ⟨n, ep0, v, hn, he, hc, hj, hl, hd, hs⟩ := Join_ok_bound h k d nid eid hok
  obtain ⟨cname, hgen, hcreate⟩ := createLink_ok h n v hc
  have hgok : (gatewayStage k (n.bindSrcName eid ep0 v) { ep0 with srcName := v } eid).out
      = .ok () := by
    rw [hj] at hok
    exact joinBound_ok_gateway h k _ _ _ eid v hok
  have hcalls := joinBound_calls_of_ok h k
    (d.withNetwork nid (n.bindSrcName eid ep0 v)) _ _ eid v hgok
  have hg := gatewayStage_not_naming k (n.bindSrcName eid ep0 v) { ep0 with srcName := v } eid
  refine ⟨n, cname, v, _, hn, hgen, hcreate, hc, hl, by rw [hj, hcalls], hg, ?_, hs⟩
  rw [hj, hcalls, List.filter_append]
  have hnone : List.filter SinkCall.isSetNames
      (gatewayStage k (n.bindSrcName eid ep0 v) { ep0 with srcName := v } eid).calls = [] := by
    rw [List.filter_eq_nil_iff]
    intro c hcm
    have hcn := hg c hcm
    cases c <;> simp [SinkCall.isNaming] at hcn <;> simp [SinkCall.isSetNames]
  rw [hnone]
  rfl

/-- Witness of C13: the join of the endpoint `10.0.0.7/24` on the bridged
network, on a host whose link creation renames: `SetNames` and the endpoint get
the name link creation returned, `vethgen@eth0.l2.bridge`, not the generated
name `vethgen`. -/
theorem Join_ok_sets_names_once_witness :
    (Join renamingHost okSink bridgedDriver "net1" "ep2").calls =
      [SinkCall.SetGateway [0, 0, 0, 0, 0, 0, 0, 0, 0, 0, 0xff, 0xff, 10, 0, 0, 1],
       SinkCall.InterfaceName, SinkCall.SetNames "vethgen@eth0.l2.bridge" containerVethPrefix ""] ∧
    (Join renamingHost okSink bridgedDriver "net1" "ep2").d.srcName "net1" "ep2" =
      some "vethgen@eth0.l2.bridge" ∧
    renamingHost.GenerateIfaceName = .ok "vethgen" ∧
    renamingHost.createIPVlan "vethgen" bridgedNetwork.config.Parent
      bridgedNetwork.config.IpvlanMode bridgedNetwork.config.IpvlanFlag = .ok "vethgen@eth0.l2.bridge" ∧
    ∃ n containerIfName v g, getNetwork bridgedDriver "net1" = .ok n ∧
      renamingHost.GenerateIfaceName = .ok containerIfName ∧
      renamingHost.createIPVlan containerIfName n.config.Parent n.config.IpvlanMode
        n.config.IpvlanFlag = .ok v ∧
      createLink renamingHost n = .ok v ∧
      (Join renamingHost okSink bridgedDriver "net1" "ep2").links = [v] ∧
      (Join renamingHost okSink bridgedDriver "net1" "ep2").calls =
        g ++ [SinkCall.InterfaceName,
          SinkCall.SetNames v containerVethPrefix renamingHost.GetIfname] ∧
      (∀ c ∈ g, c.isNaming = false) ∧
      (Join renamingHost okSink bridgedDriver "net1" "ep2").calls.filter
          SinkCall.isSetNames =
        [SinkCall.SetNames v containerVethPrefix renamingHost.GetIfname] ∧
      (Join renamingHost okSink bridgedDriver "net1" "ep2").d.srcName "net1" "ep2" = some v :=
  ⟨by decide, by decide, rfl, rfl,
   Join_ok_sets_names_once renamingHost okSink bridgedDriver "net1" "ep2" (by decide)⟩

/-- C16: on a non-internal L2 network, once the interface is created,
`DisableGatewayService` is called exactly when both configured subnet lists are
empty, and then once, with no `SetGateway` and no `SetGatewayIPv6` call; when a
family has a configured subnet it is never called, wherever `Join` ends. -/
theorem Join_bridged_disable_gateway (h : Host) (k : Sink) (d : driver) (nid eid : String)
    (n : network) (ep0 : endpoint) (v : String)
    (hn : getNetwork d nid = .ok n) (he : n.endpoint eid = some ep0)
    (hc : createLink h n = .ok v) (hint : n.config.Internal = false)
    (hmode : n.config.IpvlanMode = modeL2) :
    (n.config.Ipv4Subnets = [] ∧ n.config.Ipv6Subnets = [] →
      (Join h k d nid eid).calls =
        [SinkCall.DisableGatewayService, SinkCall.InterfaceName,
          SinkCall.SetNames v containerVethPrefix h.GetIfname] ∧
      (Join h k d nid eid).calls.count SinkCall.DisableGatewayService = 1 ∧
      (∀ c ∈ (Join h k d nid eid).calls,
        c.isSetGateway = false ∧ c.isSetGatewayIPv6 = false)) ∧
    (¬ (n.config.Ipv4Subnets = [] ∧ n.config.Ipv6Subnets = []) →
      (Join h k d nid eid).calls.count SinkCall.DisableGatewayService = 0) ∧
    (SinkCall.DisableGatewayService ∈ (Join h k d nid eid).calls ↔
      n.config.Ipv4Subnets = [] ∧ n.config.Ipv6Subnets = []) := by
  have hj := Join_of_created h k d nid eid n ep0 v hn he hc
  have hg : gatewayStage k (n.bindSrcName eid ep0 v) { ep0 with srcName := v } eid =
      bridgedStage k (n.bindSrcName eid ep0 v) { ep0 with srcName := v } eid :=
    gatewayStage_bridged k (n.bindSrcName eid ep0 v) _ eid hint hmode
  have hempty : n.config.Ipv4Subnets = [] ∧ n.config.Ipv6Subnets = [] →
      (Join h k d nid eid).calls =
        [SinkCall.DisableGatewayService, SinkCall.InterfaceName,
          SinkCall.SetNames v containerVethPrefix h.GetIfname] := by
    rintro ⟨h4, h6⟩
    have hb := bridgedStage_no_subnets k (n.bindSrcName eid ep0 v)
      { ep0 with srcName := v } eid h4 h6
    rw [hj, joinBound_calls_of_ok h k _ _ _ eid v (by rw [hg, hb]), hg, hb]
    rfl
  have hnot : ¬ (n.config.Ipv4Subnets = [] ∧ n.config.Ipv6Subnets = []) →
      SinkCall.DisableGatewayService ∉ (Join h k d nid eid).calls := by
    intro hne hmem
    obtain ⟨c4, c6, c0, hs, h4, h6, h0⟩ := bridgedStage_calls k (n.bindSrcName eid ep0 v)
      { ep0 with srcName := v } eid
    have h0e : c0 = [] := by
      rcases h0 with h0 | ⟨h04, h06, _⟩
      · exact h0
      · exact absurd ⟨h04, h06⟩ hne
    have hin : SinkCall.DisableGatewayService ∈ c4 ++ c6 := by
      rw [hj] at hmem
      rcases joinBound_calls h k (d.withNetwork nid (n.bindSrcName eid ep0 v))
        (n.bindSrcName eid ep0 v) { ep0 with srcName := v } eid v with hjc | hjc
      · rw [hjc, hg, hs, h0e] at hmem
        simpa using hmem
      · rw [hjc, hg, hs, h0e] at hmem
        simpa using hmem
    rcases List.mem_append.mp hin with hin | hin
    · rcases h4 with h4 | ⟨_, gw, h4⟩ <;> rw [h4] at hin <;> simp at hin
    · rcases h6 with h6 | ⟨_, gw, h6⟩ <;> rw [h6] at hin <;> simp at hin
  refine ⟨fun hb => ⟨hempty hb, ?_, ?_⟩, fun hne => ?_, ?_⟩
  · rw [hempty hb]
    simp [List.count_cons]
  · rw [hempty hb]
    simp [SinkCall.isSetGateway, SinkCall.isSetGatewayIPv6]
  · exact List.count_eq_zero.mpr (hnot hne)
  · constructor
    · intro hmem
      by_contra hne
      exact hnot hne hmem
    · intro hb
      rw [hempty hb]
      simp

/-- Witness of C16: the join on the network without subnets calls
`DisableGatewayService` once, the join on the network with the subnet
`10.0.0.0/24` never. -/
theorem Join_bridged_disable_gateway_witness :
    (Join okHost okSink noSubnetDriver "net1" "ep1").calls.count
      SinkCall.DisableGatewayService = 1 ∧
    (Join okHost okSink bridgedDriver "net1" "ep2").calls.count
      SinkCall.DisableGatewayService = 0 :=
  ⟨((Join_bridged_disable_gateway okHost okSink noSubnetDriver "net1" "ep1" noSubnetNetwork
      (mkEndpoint "ep1" none none) "veth0a1b2c3" (by decide) (by decide) (by decide)
      (by decide) (by decide)).1 (by decide)).2.1,
   (Join_bridged_disable_gateway okHost okSink bridgedDriver "net1" "ep2" bridgedNetwork
      (mkEndpoint "ep2" (addrOf "10.0.0.7/24") none) "veth0a1b2c3" (by decide) (by decide)
      (by decide) (by decide) (by decide)).2.1 (by decide)⟩

/-! ## Subnet resolution on an absent address -/

/-- On a nil address record the loop returns none only if it never reads the
record: the list is empty or its first prefix fails to parse; otherwise it
faults. -/
theorem getSubnetForIP_nil (subnets : List ipSubnet) :
    getSubnetForIP none subnets =
      match subnets with
      | [] => .ok none
      | s :: _ => if (ParseCIDR s.SubnetIP).isSome then .fault else .ok none := by
  cases subnets with
  | nil => rfl
  | cons s rest =>
    rw [getSubnetForIP]
    cases hp : ParseCIDR s.SubnetIP <;> simp [hp]

/-- C17 at the failing input: on a nil address record and the list
`[10.0.0.0/24]` the resolution faults instead of returning none, and the join
of an endpoint without v4 address on an L2 network with that v4 subnet faults,
after the interface was created, instead of returning the subnet-not-found
error. -/
theorem getSubnetForIP_nil_address_faults :
    getSubnetForIP none [⟨"10.0.0.0/24", "10.0.0.1/24"⟩] = .fault ∧
    getSubnetForIP none [⟨"10.0.0.0/24", "10.0.0.1/24"⟩] ≠ .ok none ∧
    (Join okHost okSink missingV4Driver "net1" "ep1").out = .fault ∧
    (Join okHost okSink missingV4Driver "net1" "ep1").out ≠ .err (.subnetNotFoundV4 "ep1") ∧
    (Join okHost okSink missingV4Driver "net1" "ep1").links = ["veth0a1b2c3"] := by
  decide

end Ipvlan


namespace Ovmanager

/-! ## Identifier allocation: theorems -/

/-- The search returns the least identifier from `lo` upward that is not in the
list, when its bound is at least the length of the list. -/
theorem firstFree_spec (fuel : Nat) (l : List Nat) (lo : Nat) (hf : l.length ≤ fuel) :
    lo ≤ firstFree fuel l lo ∧ firstFree fuel l lo ∉ l ∧
    ∀ y, lo ≤ y → y < firstFree fuel l lo → y ∈ l := by
  induction fuel generalizing l lo with
  | zero =>
    have hl : l = [] := List.length_eq_zero.mp (Nat.le_zero.mp hf)
    subst hl
    refine ⟨Nat.le_refl _, by simp, ?_⟩
    intro y h1 h2
    simp only [firstFree] at h2
    omega
  | succ fuel ih =>
    by_cases hmem : lo ∈ l
    · have hlen : (l.filter (fun y => decide (y ≠ lo))).length ≤ fuel := by
        have hlt : (l.filter (fun y => decide (y ≠ lo))).length < l.length := by
          rw [List.length_filter_lt_length_iff_exists]
          exact ⟨lo, hmem, by simp⟩
        omega
      obtain ⟨h1, h2, h3⟩ := ih (l.filter (fun y => decide (y ≠ lo))) (lo + 1) hlen
      have hstep : firstFree (fuel + 1) l lo =
          firstFree fuel (l.filter (fun y => decide (y ≠ lo))) (lo + 1) := by
        simp only [firstFree, hmem, if_true]
      rw [hstep]
      refine ⟨by omega, ?_, ?_⟩
      · intro hx
        apply h2
        rw [List.mem_filter]
        refine ⟨hx, ?_⟩
        simp only [decide_eq_true_eq]
        omega
      · intro y hy1 hy2
        by_cases hy : y = lo
        · rw [hy]
          exact hmem
        · have := h3 y (by omega) hy2
          exact (List.mem_filter.mp this).1
    · have hstep : firstFree (fuel + 1) l lo = lo := by
        simp only [firstFree, hmem, if_false]
      rw [hstep]
      refine ⟨Nat.le_refl _, hmem, ?_⟩
      intro y h1 h2
      omega

/-- What a successful fresh allocation returns: the requested number of
identifiers, ascending, within the range and none of them in use. -/
theorem allocFresh_sound (hi : Nat) (inUse : List Nat) (n lo : Nat) (ids : List Nat)
    (h : allocFresh hi inUse n lo = some ids) :
    ids.length = n ∧ ids.Pairwise (fun a b => a < b) ∧
    ∀ x ∈ ids, lo ≤ x ∧ x ≤ hi ∧ x ∉ inUse := by
  induction n generalizing lo ids with
  | zero =>
    simp only [allocFresh, Option.some.injEq] at h
    subst h
    simp
  | succ n ih =>
    obtain ⟨h1, h2, _⟩ := firstFree_spec inUse.length inUse lo (Nat.le_refl _)
    simp only [allocFresh] at h
    by_cases hx : firstFree inUse.length inUse lo ≤ hi
    · rw [if_pos hx] at h
      cases hr : allocFresh hi inUse n (firstFree inUse.length inUse lo + 1) with
      | none => rw [hr] at h; simp at h
      | some rest =>
        rw [hr] at h
        simp only [Option.map_some', Option.some.injEq] at h
        subst h
        obtain ⟨r1, r2, r3⟩ := ih _ rest hr
        refine ⟨by simp [r1], ?_, ?_⟩
        · rw [List.pairwise_cons]
          refine ⟨fun y hy => ?_, r2⟩
          have := (r3 y hy).1
          omega
        · intro y hy
          rcases List.mem_cons.mp hy with hy | hy
          · subst hy
            exact ⟨h1, hx, h2⟩
          · obtain ⟨q1, q2, q3⟩ := r3 y hy
            exact ⟨by omega, q2, q3⟩
    · rw [if_neg hx] at h
      simp at h

/-- A fresh allocation succeeds whenever the range from `lo` to `hi` holds at
least the requested number of distinct unused identifiers. -/
theorem allocFresh_complete (hi : Nat) (inUse : List Nat) (n lo : Nat) (S : List Nat)
    (hnd : S.Nodup) (hlen : n ≤ S.length)
    (hS : ∀ x ∈ S, lo ≤ x ∧ x ≤ hi ∧ x ∉ inUse) :
    ∃ ids, allocFresh hi inUse n lo = some ids := by
  induction n generalizing lo S with
  | zero => exact ⟨[], rfl⟩
  | succ n ih =>
    obtain ⟨h1, h2, h3⟩ := firstFree_spec inUse.length inUse lo (Nat.le_refl _)
    have hge : ∀ y ∈ S, firstFree inUse.length inUse lo ≤ y := by
      intro y hy
      by_contra hlt
      exact (hS y hy).2.2 (h3 y (hS y hy).1 (by omega))
    have hne : S ≠ [] := by
      intro h0
      rw [h0] at hlen
      simp at hlen
    obtain ⟨s0, hs0⟩ := List.exists_mem_of_ne_nil S hne
    have hx : firstFree inUse.length inUse lo ≤ hi :=
      Nat.le_trans (hge s0 hs0) (hS s0 hs0).2.1
    have hS1 : ∀ y ∈ S.erase (firstFree inUse.length inUse lo),
        firstFree inUse.length inUse lo + 1 ≤ y ∧ y ≤ hi ∧ y ∉ inUse := by
      intro y hy
      obtain ⟨hy1, hy2⟩ := (List.Nodup.mem_erase_iff hnd).mp hy
      have := hge y hy2
      exact ⟨by omega, (hS y hy2).2.1, (hS y hy2).2.2⟩
    have hlen1 : n ≤ (S.erase (firstFree inUse.length inUse lo)).length := by
      have := List.le_length_erase (firstFree inUse.length inUse lo) S
      omega
    obtain ⟨rest, hr⟩ := ih (firstFree inUse.length inUse lo + 1)
      (S.erase (firstFree inUse.length inUse lo)) (hnd.erase _) hlen1 hS1
    exact ⟨firstFree inUse.length inUse lo :: rest, by simp [allocFresh, hx, hr]⟩

theorem find_invalid_none (d : driver) (ids : List Nat)
    (hv : ∀ x ∈ ids, d.vxlanIDStart ≤ x ∧ x ≤ d.vxlanIDEnd ∧ x ∉ d.inUse) :
    ids.find? (fun x => !validID d x) = none := by
  rw [List.find?_eq_none]
  intro x hx
  obtain ⟨h1, h2, h3⟩ := hv x hx
  simp [validID, h1, h2, h3]

/-- C14: when more explicit identifiers are supplied than the network has
subnets, all of them in range and unused, `NetworkAllocate` succeeds and
returns exactly the first `subnetCount` supplied identifiers in the order
supplied; the excess is dropped without error. -/
theorem NetworkAllocate_trims_explicit_ids (d : driver) (id : String)
    (vxlanIDList : List Nat) (ipamData : List IPAMData)
    (hmore : ipamData.length < vxlanIDList.length)
    (hv : ∀ x ∈ vxlanIDList, d.vxlanIDStart ≤ x ∧ x ≤ d.vxlanIDEnd ∧ x ∉ d.inUse) :
    ∃ d1, NetworkAllocate d id vxlanIDList ipamData =
        .ok (vxlanIDList.take ipamData.length, d1) ∧
      (vxlanIDList.take ipamData.length).length = ipamData.length := by
  have hne : vxlanIDList ≠ [] := by
    intro h0
    rw [h0] at hmore
    simp at hmore
  have hmin : min vxlanIDList.length ipamData.length = ipamData.length :=
    Nat.min_eq_right (Nat.le_of_lt hmore)
  refine ⟨d.record id (vxlanIDList.take ipamData.length), ?_, ?_⟩
  · unfold NetworkAllocate Allocate
    rw [if_neg hne, find_invalid_none d vxlanIDList hv]
    simp only [hmin]
  · rw [List.length_take]
    exact Nat.min_eq_left (Nat.le_of_lt hmore)

/-- Witness of C14: two pools and the identifiers `4096, 4097, 4098` give
`4096, 4097`, read back as the string `"4096,4097"`. -/
theorem NetworkAllocate_trims_explicit_ids_witness :
    testIpamData.length = 2 ∧
    encodeVxlanIDList ([4096, 4097, 4098].take testIpamData.length) = "4096,4097" ∧
    ∃ d1, NetworkAllocate newDriver "testnetwork" [4096, 4097, 4098] testIpamData =
        .ok ([4096, 4097, 4098].take testIpamData.length, d1) ∧
      ([4096, 4097, 4098].take testIpamData.length).length = testIpamData.length :=
  ⟨by decide, by decide,
   NetworkAllocate_trims_explicit_ids newDriver "testnetwork" [4096, 4097, 4098] testIpamData
     (by decide) (by decide)⟩

/-- C15: without explicit identifiers, while the pool still holds as many unused
identifiers as the network has IPAM records, `NetworkAllocate` succeeds and
returns exactly that many identifiers, ascending and so pairwise distinct,
within the range and none of them in use before the call; the following
`NetworkFree` of that network returns no error. -/
theorem NetworkAllocate_fresh_ids (d : driver) (id : String) (ipamData : List IPAMData)
    (hpool : ∃ S : List Nat, S.Nodup ∧ ipamData.length ≤ S.length ∧
      ∀ x ∈ S, d.vxlanIDStart ≤ x ∧ x ≤ d.vxlanIDEnd ∧ x ∉ d.inUse) :
    ∃ ids d1, NetworkAllocate d id [] ipamData = .ok (ids, d1) ∧
      ids.length = ipamData.length ∧
      ids.Nodup ∧ ids.Pairwise (fun a b => a < b) ∧
      (∀ x ∈ ids, d.vxlanIDStart ≤ x ∧ x ≤ d.vxlanIDEnd ∧ x ∉ d.inUse) ∧
      ∃ d2, NetworkFree d1 id = .ok d2 := by
  obtain ⟨S, hnd, hlen, hS⟩ := hpool
  obtain ⟨ids, hids⟩ := allocFresh_complete d.vxlanIDEnd d.inUse ipamData.length
    d.vxlanIDStart S hnd hlen hS
  obtain ⟨h1, h2, h3⟩ := allocFresh_sound _ _ _ _ ids hids
  refine ⟨ids, d.record id ids, ?_, h1, ?_, h2, h3, ⟨_, rfl⟩⟩
  · unfold NetworkAllocate Allocate
    simp only [if_true, hids]
  · exact h2.imp (fun hab => Nat.ne_of_lt hab)

/-- Witness of C15: the pools `10.1.1.0/24` and `10.1.2.0/24` on a fresh driver
give two identifiers, `4096` and `4097`. -/
theorem NetworkAllocate_fresh_ids_witness :
    testIpamData.length = 2 ∧
    (NetworkAllocate newDriver "testnetwork" [] testIpamData).toOption.map (fun r => r.1) =
      some [4096, 4097] ∧
    ∃ ids d1, NetworkAllocate newDriver "testnetwork" [] testIpamData = .ok (ids, d1) ∧
      ids.length = testIpamData.length ∧
      ids.Nodup ∧ ids.Pairwise (fun a b => a < b) ∧
      (∀ x ∈ ids, newDriver.vxlanIDStart ≤ x ∧ x ≤ newDriver.vxlanIDEnd ∧
        x ∉ newDriver.inUse) ∧
      ∃ d2, NetworkFree d1 "testnetwork" = .ok d2 :=
  ⟨by decide, by decide,
   NetworkAllocate_fresh_ids newDriver "testnetwork" testIpamData
     ⟨[4096, 4097], by decide, by decide, by decide⟩⟩

end Ovmanager
